import Mathlib

/-!
Verification of the prediction engine of `python-service/lottOracleV2.py`
(Ghana lottery explorer).  The Python source is shallowly embedded:

* draws are `List ℤ` (Python lists of ints);
* Python floats are idealised as rationals `ℚ`.  The two genuinely
  transcendental library calls (`np.std`, the Shannon-entropy with `log2`)
  are abstracted as function parameters, since no claim depends on their
  values;
* Python dicts/`Counter`s are association lists that keep the source's
  insertion order, so that tie-breaking by Python's stable `sorted`
  is reproduced exactly;
* the `random` module is modelled by an explicit stream of idealised
  uniform samples in `[0,1)` that is threaded through the computation;
  `random.seed(s)` replaces the stream by `prng s` for an abstract
  `prng`, exactly as CPython replaces the hidden Mersenne-Twister state.
-/

namespace LottoOracle

/-! ### Python-library helpers -/

/-- Python `sorted` on integers: ascending, stable (insertion sort is
stable, like CPython's timsort). -/
def pysort (l : List ℤ) : List ℤ :=
  List.insertionSort (fun a b => a ≤ b) l

/-- Python `sorted(l, key=key, reverse=True)`: stable descending sort by a
rational key (ties keep the original order, as CPython's timsort does). -/
def sortByKeyDesc {α : Type} (key : α → ℚ) (l : List α) : List α :=
  @List.insertionSort α (fun a b => key b ≤ key a)
    (fun a b => inferInstanceAs (Decidable (key b ≤ key a))) l

/-- Python `sorted(l, key=key)`: stable ascending sort by a rational key. -/
def sortByKeyAsc {α : Type} (key : α → ℚ) (l : List α) : List α :=
  @List.insertionSort α (fun a b => key a ≤ key b)
    (fun a b => inferInstanceAs (Decidable (key a ≤ key b))) l

/-- Python `list(range(a, b))` on integers. -/
def pyrange (a b : ℤ) : List ℤ :=
  (List.range (b - a).toNat).map (fun (i : ℕ) => a + (i : ℤ))

/-- Python floor division `//` on integers. -/
def pyfdiv (a b : ℤ) : ℤ := Int.fdiv a b

/-- Floor of a rational, written so that it evaluates by kernel reduction. -/
def ratFloor (q : ℚ) : ℤ := Int.fdiv q.num q.den

/-- Python `abs` on rationals (an executable spelling of `|q|`). -/
def ratAbs (q : ℚ) : ℚ := if q < 0 then -q else q

/-- Python `min` on rationals (an executable spelling of `min`). -/
def ratMin (a b : ℚ) : ℚ := if a ≤ b then a else b

/-- Python `max` on rationals (an executable spelling of `max`). -/
def ratMax (a b : ℚ) : ℚ := if a ≤ b then b else a

/-- Python `int(q)` on a float idealised as a rational: truncation toward 0. -/
def pyint (q : ℚ) : ℤ := if 0 ≤ q then ratFloor q else -(ratFloor (-q))

/-- Python `round(q, 3)` on a float idealised as a rational:
round half to even at three decimal places. -/
def pyround3 (q : ℚ) : ℚ :=
  let x : ℚ := q * 1000
  let f : ℤ := ratFloor x
  let r : ℚ := x - f
  let n : ℤ :=
    if r < 1/2 then f
    else if r > 1/2 then f + 1
    else if f % 2 = 0 then f else f + 1
  (n : ℚ) / 1000

/-- `np.mean` of a list of rationals (0 on the empty list, which the source
never hits on the paths we model). -/
def npMean (l : List ℚ) : ℚ :=
  if l.length = 0 then 0 else l.sum / l.length

/-- An association list with the insertion-order semantics of a Python
`dict` / `Counter`: update the entry of `k` with `upd`, or append a fresh
key with value `v0` at the end, exactly like `counter[k] += w`. -/
def bumpWith {ν : Type} (l : List (ℤ × ν)) (k : ℤ) (upd : ν → ν) (v0 : ν) :
    List (ℤ × ν) :=
  if l.any (fun p => p.1 = k) then
    l.map (fun p => if p.1 = k then (p.1, upd p.2) else p)
  else l ++ [(k, v0)]

/-- `counter[k] += w` for rational weights. -/
def bumpQ (l : List (ℤ × ℚ)) (k : ℤ) (w : ℚ) : List (ℤ × ℚ) :=
  bumpWith l k (fun v => v + w) w

/-- `counter[k] += 1` over natural-number counts. -/
def bumpN (l : List (ℤ × ℕ)) (k : ℤ) : List (ℤ × ℕ) :=
  bumpWith l k (fun v => v + 1) 1

/-- `Counter(xs)`: counts in first-appearance order, like Python's. -/
def counterOf (xs : List ℤ) : List (ℤ × ℕ) :=
  xs.foldl (fun acc x => bumpN acc x) []

/-- `counter.get(k, 0)` for rational-valued counters. -/
def getQ (l : List (ℤ × ℚ)) (k : ℤ) : ℚ :=
  match l.find? (fun p => p.1 = k) with
  | some p => p.2
  | none => 0

/-- `counter.get(k, 0)` for `ℕ`-valued counters. -/
def getN (l : List (ℤ × ℕ)) (k : ℤ) : ℕ :=
  match l.find? (fun p => p.1 = k) with
  | some p => p.2
  | none => 0

/-- `Counter.most_common()` with `ℕ` counts: count descending, ties in
insertion order (CPython sorts stably by `-count`). -/
def mostCommonN (l : List (ℤ × ℕ)) : List (ℤ × ℕ) :=
  sortByKeyDesc (fun p => (p.2 : ℚ)) l

/-- `Counter.most_common()` with rational weights. -/
def mostCommonQ (l : List (ℤ × ℚ)) : List (ℤ × ℚ) :=
  sortByKeyDesc (fun p => p.2) l

/-! ### AntiPatternFilter (`lottOracleV2.py` lines 347-445)

The ten anti-pattern rules, in the order of the source's `ANTI_PATTERNS`
dict. -/

def all_evens (nums : List ℤ) : Bool := nums.all (fun n => n % 2 = 0)

def all_odds (nums : List ℤ) : Bool := nums.all (fun n => n % 2 = 1)

def all_high (nums : List ℤ) : Bool := nums.all (fun n => 45 < n)

def all_low (nums : List ℤ) : Bool := nums.all (fun n => n ≤ 45)

def all_same_decade (nums : List ℤ) : Bool :=
  ((nums.map (fun n => pyfdiv (n - 1) 10)).dedup).length = 1

/-- `sorted(nums) == list(range(min(nums), min(nums)+5))`.  The source would
raise on an empty list; candidates always have five numbers. -/
def consecutive_5 (nums : List ℤ) : Bool :=
  match nums.min? with
  | none => false
  | some m => pysort nums = [m, m + 1, m + 2, m + 3, m + 4]

def sum_too_low (nums : List ℤ) : Bool := nums.sum < 100

def sum_too_high (nums : List ℤ) : Bool := 350 < nums.sum

def all_multiples_5 (nums : List ℤ) : Bool := nums.all (fun n => n % 5 = 0)

def all_multiples_10 (nums : List ℤ) : Bool := nums.all (fun n => n % 10 = 0)

/-- The source's `ANTI_PATTERNS` table, in dict order. -/
def ANTI_PATTERNS : List (String × (List ℤ → Bool)) :=
  [("all_evens", all_evens), ("all_odds", all_odds),
   ("all_high", all_high), ("all_low", all_low),
   ("all_same_decade", all_same_decade), ("consecutive_5", consecutive_5),
   ("sum_too_low", sum_too_low), ("sum_too_high", sum_too_high),
   ("all_multiples_5", all_multiples_5), ("all_multiples_10", all_multiples_10)]

/-- `check_patterns(prediction)['violations']`: names of violated rules. -/
def violationNames (prediction : List ℤ) : List String :=
  (ANTI_PATTERNS.filter (fun p => p.2 prediction)).map (fun p => p.1)

/-- `check_patterns(prediction)['is_valid']`. -/
def check_is_valid (prediction : List ℤ) : Bool :=
  (violationNames prediction).isEmpty

/-- `check_patterns(prediction)['score'] = 1.0 - violations*0.15`. -/
def check_score (prediction : List ℤ) : ℚ :=
  1 - (violationNames prediction).length * (15 / 100)

/-- One repair round of `fix_prediction` (the body of the `for` loop after
the validity check).  `'name' in violations` in the source is equivalent to
the rule's check holding for the current `result`. -/
def fixRound (number_pool result : List ℤ) : List ℤ :=
  if all_evens result then
    -- replace the first even with the median eligible odd from the pool
    if (result.filter (fun n => n % 2 = 0)).isEmpty then result else
      let candidates := number_pool.filter (fun n => n % 2 = 1 && !(decide (n ∈ result)))
      if candidates.isEmpty then result else
        result.set (result.findIdx (fun n => n % 2 = 0))
          (candidates.getD (candidates.length / 2) 0)
  else if all_odds result then
    if (result.filter (fun n => n % 2 = 1)).isEmpty then result else
      let candidates := number_pool.filter (fun n => n % 2 = 0 && !(decide (n ∈ result)))
      if candidates.isEmpty then result else
        result.set (result.findIdx (fun n => n % 2 = 1))
          (candidates.getD (candidates.length / 2) 0)
  else if all_high result then
    if (result.filter (fun n => 45 < n)).isEmpty then result else
      let candidates := number_pool.filter (fun n => n ≤ 45 && !(decide (n ∈ result)))
      if candidates.isEmpty then result else
        result.set (result.findIdx (fun n => 45 < n))
          (candidates.getD (candidates.length / 2) 0)
  else if all_low result then
    if (result.filter (fun n => n ≤ 45)).isEmpty then result else
      let candidates := number_pool.filter (fun n => 45 < n && !(decide (n ∈ result)))
      if candidates.isEmpty then result else
        result.set (result.findIdx (fun n => n ≤ 45))
          (candidates.getD (candidates.length / 2) 0)
  else if sum_too_low result then
    -- `result.sort()` then replace the smallest with the FIRST pool number > 60
    let base := pysort result
    let candidates := number_pool.filter (fun n => 60 < n && !(decide (n ∈ base)))
    if candidates.isEmpty then base else
      base.set 0 (candidates.getD 0 0)
  else if sum_too_high result then
    -- `result.sort()` then replace the largest with the LAST pool number < 30
    let base := pysort result
    let candidates := number_pool.filter (fun n => n < 30 && !(decide (n ∈ base)))
    if candidates.isEmpty then base else
      base.set (base.length - 1) (candidates.getD (candidates.length - 1) 0)
  else result

/-- The `for _ in range(10)` loop of `fix_prediction`: stop as soon as the
candidate is valid, otherwise apply one repair round. -/
def fixLoop (number_pool : List ℤ) : ℕ → List ℤ → List ℤ
  | 0, result => result
  | k + 1, result =>
    if check_is_valid result then result
    else fixLoop number_pool k (fixRound number_pool result)

/-- `AntiPatternFilter.fix_prediction` (lines 379-445). -/
def fix_prediction (prediction : List ℤ) (number_pool : List ℤ) : List ℤ :=
  pysort (fixLoop number_pool 10 prediction)

/-- Modelled from claim C4's words: a repair round in which EVERY rule,
including `sum_too_low` and `sum_too_high`, replaces the offending number
with the median-index eligible replacement from the pool. -/
def fixRoundClaimed (number_pool result : List ℤ) : List ℤ :=
  if all_evens result then
    if (result.filter (fun n => n % 2 = 0)).isEmpty then result else
      let candidates := number_pool.filter (fun n => n % 2 = 1 && !(decide (n ∈ result)))
      if candidates.isEmpty then result else
        result.set (result.findIdx (fun n => n % 2 = 0))
          (candidates.getD (candidates.length / 2) 0)
  else if all_odds result then
    if (result.filter (fun n => n % 2 = 1)).isEmpty then result else
      let candidates := number_pool.filter (fun n => n % 2 = 0 && !(decide (n ∈ result)))
      if candidates.isEmpty then result else
        result.set (result.findIdx (fun n => n % 2 = 1))
          (candidates.getD (candidates.length / 2) 0)
  else if all_high result then
    if (result.filter (fun n => 45 < n)).isEmpty then result else
      let candidates := number_pool.filter (fun n => n ≤ 45 && !(decide (n ∈ result)))
      if candidates.isEmpty then result else
        result.set (result.findIdx (fun n => 45 < n))
          (candidates.getD (candidates.length / 2) 0)
  else if all_low result then
    if (result.filter (fun n => n ≤ 45)).isEmpty then result else
      let candidates := number_pool.filter (fun n => 45 < n && !(decide (n ∈ result)))
      if candidates.isEmpty then result else
        result.set (result.findIdx (fun n => n ≤ 45))
          (candidates.getD (candidates.length / 2) 0)
  else if sum_too_low result then
    let base := pysort result
    let candidates := number_pool.filter (fun n => 60 < n && !(decide (n ∈ base)))
    if candidates.isEmpty then base else
      base.set 0 (candidates.getD (candidates.length / 2) 0)
  else if sum_too_high result then
    let base := pysort result
    let candidates := number_pool.filter (fun n => n < 30 && !(decide (n ∈ base)))
    if candidates.isEmpty then base else
      base.set (base.length - 1) (candidates.getD (candidates.length / 2) 0)
  else result

/-- The loop of claim C4's description, with median replacements. -/
def fixLoopClaimed (number_pool : List ℤ) : ℕ → List ℤ → List ℤ
  | 0, result => result
  | k + 1, result =>
    if check_is_valid result then result
    else fixLoopClaimed number_pool k (fixRoundClaimed number_pool result)

/-- `fix_prediction` as claim C4 describes it (median-index replacement for
every repaired rule). -/
def fix_prediction_claimed (prediction : List ℤ) (number_pool : List ℤ) : List ℤ :=
  pysort (fixLoopClaimed number_pool 10 prediction)

/-- A repair rule as explicit data: the violated pattern, whether the round
first sorts the working list, a guard (the source's `if evens:` etc.), the
index that gets replaced, the eligibility predicate for pool replacements,
and which eligible candidate is picked (as a function of how many there are). -/
structure RepairRule where
  broken : List ℤ → Bool
  presort : Bool
  offGuard : List ℤ → Bool
  offIdx : List ℤ → ℕ
  eligible : ℤ → Bool
  pick : ℕ → ℕ

/-- Apply one repair rule to the working candidate. -/
def applyRule (number_pool : List ℤ) (r : RepairRule) (result : List ℤ) : List ℤ :=
  let base := cond r.presort (pysort result) result
  if r.offGuard base then
    let candidates := number_pool.filter (fun n => r.eligible n && !(decide (n ∈ base)))
    if candidates.isEmpty then base
    else base.set (r.offIdx base) (candidates.getD (r.pick candidates.length) 0)
  else base

/-- The repair policy of `fix_prediction` as a rule table, in priority
order: the four parity/zone rules replace the first offending number with
the median-index eligible pool number; `sum_too_low` sorts and replaces the
smallest number with the FIRST eligible pool number above 60; `sum_too_high`
sorts and replaces the largest number with the LAST eligible pool number
below 30. -/
def repairRules : List RepairRule :=
  [⟨all_evens, false, fun l => !(l.filter (fun n => n % 2 = 0)).isEmpty,
    fun l => l.findIdx (fun n => n % 2 = 0), fun n => n % 2 = 1, fun m => m / 2⟩,
   ⟨all_odds, false, fun l => !(l.filter (fun n => n % 2 = 1)).isEmpty,
    fun l => l.findIdx (fun n => n % 2 = 1), fun n => n % 2 = 0, fun m => m / 2⟩,
   ⟨all_high, false, fun l => !(l.filter (fun n => 45 < n)).isEmpty,
    fun l => l.findIdx (fun n => 45 < n), fun n => n ≤ 45, fun m => m / 2⟩,
   ⟨all_low, false, fun l => !(l.filter (fun n => n ≤ 45)).isEmpty,
    fun l => l.findIdx (fun n => n ≤ 45), fun n => 45 < n, fun m => m / 2⟩,
   ⟨sum_too_low, true, fun _ => true, fun _ => 0, fun n => 60 < n, fun _ => 0⟩,
   ⟨sum_too_high, true, fun _ => true, fun l => l.length - 1, fun n => n < 30,
    fun m => m - 1⟩]

/-- Repair using the first broken rule of the table (priority order). -/
def applyFirstBroken (number_pool result : List ℤ) : List RepairRule → List ℤ
  | [] => result
  | r :: rs =>
    if r.broken result then applyRule number_pool r result
    else applyFirstBroken number_pool result rs

/-- The table-driven version of the repair loop. -/
def fixLoopTable (number_pool : List ℤ) : ℕ → List ℤ → List ℤ
  | 0, result => result
  | k + 1, result =>
    if check_is_valid result then result
    else fixLoopTable number_pool k (applyFirstBroken number_pool result repairRules)

/-- The table-driven version of `fix_prediction`. -/
def fix_prediction_table (prediction : List ℤ) (number_pool : List ℤ) : List ℤ :=
  pysort (fixLoopTable number_pool 10 prediction)

/-! ### AdvancedPatternDetector (`lottOracleV2.py` lines 18-106)

`np.std` and the two Shannon entropies use `sqrt`/`log2`, which have no
exact rational value; they are taken as parameters.  No claim depends on
their values. -/

/-- Gaps between consecutive numbers of a sorted draw:
`[sorted[i] - sorted[i-1] for i in range(1, len(sorted))]`. -/
def drawGaps (draw : List ℤ) : List ℤ :=
  let s := pysort draw
  (s.drop 1).zipWith (fun a b => a - b) s

/-- `_detect_number_clusters`: draws whose sorted gaps all stay below 25
(draws with fewer than two numbers are skipped). -/
def _detect_number_clusters (draws : List (List ℤ)) : List (List ℤ) :=
  draws.filter (fun draw =>
    if draw.length < 2 then false
    else
      let gaps := drawGaps draw
      !gaps.isEmpty && decide (gaps.max?.getD 0 < 25))

/-- The numeric fields of the dict returned by `_calculate_period_metrics`. -/
structure PeriodMetrics where
  sum_mean : ℚ
  sum_std : ℚ
  number_entropy : ℚ
  delta_entropy : ℚ
  cluster_score : ℚ

/-- `_calculate_period_metrics` for a non-empty period (the `if not draws`
branch is unreachable from `detect_regime_change`, which always passes at
least 50 draws).  `npStdFn` stands for `np.std`, `numberEntropyFn` for the
number-occurrence entropy and `entropyFn` for the delta entropy, both of
which use `log2`. -/
def _calculate_period_metrics (npStdFn : List ℚ → ℚ)
    (numberEntropyFn entropyFn : List ℤ → ℚ)
    (draws : List (List ℤ)) : PeriodMetrics :=
  let all_numbers := draws.flatten
  let sums : List ℚ := draws.map (fun d => (d.sum : ℚ))
  let deltas := draws.flatMap drawGaps
  { sum_mean := npMean sums
    sum_std := npStdFn sums
    number_entropy := numberEntropyFn all_numbers
    delta_entropy := entropyFn deltas
    cluster_score :=
      if draws.isEmpty then 0
      else ((_detect_number_clusters draws).length : ℚ) / draws.length }

/-- The `detected`/`confidence` fields of `detect_regime_change`'s result
(the `details` field is a human-readable percent-formatted display of the
same change scores and is not modelled). -/
structure RegimeResult where
  detected : Bool
  confidence : ℚ
  deriving DecidableEq

/-- Relative change per metric: `abs(new-old)/(abs(old)+1e-10)`. -/
def relChange (old nw : ℚ) : ℚ :=
  ratAbs (nw - old) / (ratAbs old + 1 / 10000000000)

/-- `AdvancedPatternDetector.detect_regime_change` (lines 30-59). -/
def detect_regime_change (npStdFn : List ℚ → ℚ)
    (numberEntropyFn entropyFn : List ℤ → ℚ)
    (recent_draws : List (List ℤ)) : RegimeResult :=
  if recent_draws.length < 100 then { detected := false, confidence := 0 }
  else
    let half := recent_draws.length / 2
    let old := recent_draws.take half
    let nw := recent_draws.drop half
    let mo := _calculate_period_metrics npStdFn numberEntropyFn entropyFn old
    let mn := _calculate_period_metrics npStdFn numberEntropyFn entropyFn nw
    let total_change : ℚ :=
      relChange mo.sum_mean mn.sum_mean * (3/10) +
      relChange mo.delta_entropy mn.delta_entropy * (4/10) +
      relChange mo.cluster_score mn.cluster_score * (3/10)
    { detected := decide (total_change > 1/4), confidence := ratMin total_change 1 }

/-- The weighted change score of `detect_regime_change`'s two halves, as
the spec formula spells it: `0.3*d(sum_mean) + 0.4*d(delta_entropy) +
0.3*d(cluster_score)` with `d(m) = |new-old|/(|old|+1e-10)`. -/
def weightedChange (npStdFn : List ℚ → ℚ)
    (numberEntropyFn entropyFn : List ℤ → ℚ)
    (recent_draws : List (List ℤ)) : ℚ :=
  let half := recent_draws.length / 2
  let mo := _calculate_period_metrics npStdFn numberEntropyFn entropyFn
    (recent_draws.take half)
  let mn := _calculate_period_metrics npStdFn numberEntropyFn entropyFn
    (recent_draws.drop half)
  ratAbs (mn.sum_mean - mo.sum_mean) /
    (ratAbs mo.sum_mean + 1 / 10000000000) * (3/10) +
  ratAbs (mn.delta_entropy - mo.delta_entropy) /
    (ratAbs mo.delta_entropy + 1 / 10000000000) * (4/10) +
  ratAbs (mn.cluster_score - mo.cluster_score) /
    (ratAbs mo.cluster_score + 1 / 10000000000) * (3/10)

/-! ### MLPredictor (`lottOracleV2.py` lines 599-831)

The scikit-learn classifiers, the feature scaler and the oversampling step
are opaque library components; they enter the embedding as function
parameters (`scaler`, `rf`, `gb`).  Everything the source computes itself
(the feature engineering) is embedded. -/

/-- `MLPredictor._calculate_skips`: draws since the number last appeared
(scanning backward), or the number of draws if it never appeared. -/
def _calculate_skips (num : ℤ) (draws : List (List ℤ)) : ℤ :=
  match draws.reverse.findIdx? (fun d => decide (num ∈ d)) with
  | some j => (j : ℤ)
  | none => (draws.length : ℤ)

/-- `MLPredictor._position_tendency`: mean normalised sorted-rank of the
number over the draws that contain it; 0.5 when there are none. -/
def _position_tendency (num : ℤ) (draws : List (List ℤ)) : ℚ :=
  if draws.isEmpty then 1/2
  else
    let positions := (draws.filter (fun d => decide (num ∈ d))).map
      (fun d => (((pysort d).indexOf num : ℕ) : ℚ) / 4)
    if positions.isEmpty then 1/2 else npMean positions

/-- `draws[-10:]` — the last ten draws (all of them when fewer). -/
def lastN (n : ℕ) (draws : List (List ℤ)) : List (List ℤ) :=
  draws.drop (draws.length - n)

/-- `MLPredictor._delta_compatibility`. -/
def _delta_compatibility (num : ℤ) (draws : List (List ℤ)) : ℚ :=
  if draws.isEmpty then 0
  else
    let compat_scores := draws.flatMap (fun draw =>
      if draw.length ≥ 2 then
        draw.filterMap (fun other =>
          let delta : ℤ := ((num - other).natAbs : ℤ)
          if delta ≤ 30 then
            let recent_deltas := (lastN 10 draws).flatMap drawGaps
            some ((recent_deltas.count delta : ℚ) / (recent_deltas.length + 1))
          else none)
      else [])
    if compat_scores.isEmpty then 0 else npMean compat_scores

/-- `MLPredictor._trend_score`. -/
def _trend_score (num : ℤ) (recent_draws : List (List ℤ)) : ℚ :=
  if recent_draws.length < 5 then 1/2
  else
    let half := recent_draws.length / 2
    let first := recent_draws.take half
    let second := recent_draws.drop half
    let freq_first : ℚ :=
      ((first.filter (fun d => decide (num ∈ d))).length : ℚ) / (first.length + 1)
    let freq_second : ℚ :=
      ((second.filter (fun d => decide (num ∈ d))).length : ℚ) / (second.length + 1)
    (freq_second - freq_first + 1) / 2

/-- The 7-entry feature vector shared by `create_features` (frequency
denominator `lookback`, skips over `historical[:i+1]`) and `predict_proba`
(frequency denominator `len(recent)`, skips over the whole history). -/
def featureVec (recentFreqDen : ℚ) (skipsBase recent : List (List ℤ))
    (num : ℤ) : List ℚ :=
  [((recent.filter (fun d => decide (num ∈ d))).length : ℚ) / recentFreqDen,
   ((_calculate_skips num skipsBase : ℤ) : ℚ),
   _position_tendency num recent,
   _delta_compatibility num recent,
   ((num % 2 : ℤ) : ℚ),
   if 45 < num then 1 else 0,
   _trend_score num (if recent.length ≥ 10 then lastN 10 recent else recent)]

/-- `MLPredictor.create_features` (lines 638-675), returning the `X` and
`y` arrays as one list of (features, label) samples in source order.  The
source's `if i + 1 >= n_draws: continue` guard never fires (`i ≤ n-2`), and
`i - lookback >= 0` always holds (`i ≥ lookback`). -/
def create_features (historical : List (List ℤ)) : List (List ℚ × ℤ) :=
  let lookback := 50
  let n := historical.length
  if n < lookback + 10 then []
  else
    ((List.range (n - 1 - lookback)).map (fun k => lookback + k)).flatMap
      (fun i =>
        let recent := (historical.drop (i - lookback)).take lookback
        let next_draw := historical.getD (i + 1) []
        (pyrange 1 91).map (fun num =>
          (featureVec (lookback : ℚ) (historical.take (i + 1)) recent num,
           if num ∈ next_draw then (1 : ℤ) else 0)))

/-- `MLPredictor.train` (lines 677-707) as the predicate "training
succeeded / `is_trained` was set": it fails exactly when `create_features`
produced no samples; the class rebalancing and the two `model.fit` calls
are opaque sklearn operations that do not change the outcome flag. -/
def train_succeeds (historical : List (List ℤ)) : Bool :=
  !(create_features historical).isEmpty

/-- The final normalisation of `predict_proba` (lines 765-768):
`total = sum(...); if total > 0: divide every weight by total`. -/
def normalizeDist (predictions : List (ℤ × ℚ)) : List (ℤ × ℚ) :=
  let total := (predictions.map Prod.snd).sum
  if 0 < total then predictions.map (fun p => (p.1, p.2 / total))
  else predictions

/-- `MLPredictor.predict_proba` (lines 735-770): the uniform 1/90 fallback
when untrained, else the normalised mean of the two models' per-number
probabilities (`scaler`, `rf`, `gb` are the opaque sklearn components). -/
def predict_proba (is_trained : Bool) (scaler : List ℚ → List ℚ)
    (rf gb : List ℚ → ℚ) (historical : List (List ℤ)) : List (ℤ × ℚ) :=
  if !is_trained then (pyrange 1 91).map (fun i => (i, (1 : ℚ)/90))
  else
    let recent :=
      if historical.length ≥ 50 then lastN 50 historical else historical
    normalizeDist ((pyrange 1 91).map (fun num =>
      let features := featureVec ((recent.length : ℚ)) historical recent num
      let fs := scaler features
      (num, (rf fs + gb fs) / 2)))

/-! ### ZoneAnalyzer / GapAnalyzer / PositionAnalyzer / ConfidenceScorer
(`lottOracleV2.py` lines 109-263, 448-596) -/

/-- Python `max` on integers. -/
def intMax (a b : ℤ) : ℤ := if a ≤ b then b else a

/-- `ZoneAnalyzer.get_zone`: zone index `(num - 1) // 10`. -/
def get_zone (num : ℤ) : ℤ := pyfdiv (num - 1) 10

/-- The fields of `GapAnalyzer.analyze_gaps`'s result that are consumed
downstream (`common_sequences` is display-only and not modelled). -/
structure GapAnalysis where
  common_gaps : List (ℤ × ℕ)
  avg_gap : ℚ
  std_gap : ℚ
  min_gap : ℤ
  max_gap : ℤ
  ideal_gap_range : ℤ × ℤ

/-- `GapAnalyzer.analyze_gaps` (lines 195-231); `none` is the empty dict
returned for an empty draw list.  `np.std` enters as the parameter
`stdFn`. -/
def analyze_gaps (stdFn : List ℚ → ℚ) (draws : List (List ℤ)) :
    Option GapAnalysis :=
  if draws.isEmpty then none
  else
    let all_gaps := draws.flatMap drawGaps
    let gap_counter := counterOf all_gaps
    let avg_gap : ℚ :=
      if all_gaps.isEmpty then 0 else npMean (all_gaps.map (fun g => (g : ℚ)))
    let std_gap : ℚ :=
      if all_gaps.isEmpty then 0 else stdFn (all_gaps.map (fun g => (g : ℚ)))
    some
      { common_gaps := (mostCommonN gap_counter).take 10
        avg_gap := avg_gap
        std_gap := std_gap
        min_gap := if all_gaps.isEmpty then 0 else all_gaps.min?.getD 0
        max_gap := if all_gaps.isEmpty then 0 else all_gaps.max?.getD 0
        ideal_gap_range :=
          (intMax 1 (pyint (avg_gap - std_gap)), pyint (avg_gap + std_gap)) }

/-- `GapAnalyzer.validate_gaps` (lines 233-263). -/
def validate_gaps (prediction : List ℤ) (gap_analysis : Option GapAnalysis) :
    ℚ :=
  if prediction.length ≠ 5 then 0
  else
    let sorted_pred := pysort prediction
    let gaps := (sorted_pred.drop 1).zipWith (fun a b => a - b) sorted_pred
    let ideal_range :=
      match gap_analysis with
      | some a => a.ideal_gap_range
      | none => (5, 25)
    let common_gaps :=
      match gap_analysis with
      | some a => a.common_gaps
      | none => []
    let in_range :=
      ((gaps.filter (fun g =>
        decide (ideal_range.1 ≤ g) && decide (g ≤ ideal_range.2))).length : ℚ)
        * (15/100)
    -- `max(common_gaps.values())`: only evaluated when a gap matches, so
    -- `common_gaps` is non-empty there (Python `max` would raise on empty)
    let maxCount : ℕ := (common_gaps.map Prod.snd).foldr Nat.max 0
    let bonus := (gaps.filterMap (fun g =>
      match common_gaps.find? (fun p => p.1 = g) with
      | some p => some ((1/10 : ℚ) * ((p.2 : ℚ) / (maxCount : ℚ)))
      | none => none)).sum
    let consecutive := ((gaps.filter (fun g => g = 1)).length : ℚ)
    let large := ((gaps.filter (fun g => 30 < g)).length : ℚ)
    ratMax 0 (ratMin 1 (in_range + bonus - consecutive * (1/10) -
      large * (1/10)))

/-- `PositionAnalyzer.analyze_positions`' `position_favorites`: the 15 most
common numbers at each sorted-rank position (the other fields of the dict
are not consumed by the confidence scorer). -/
def position_favorites (draws : List (List ℤ)) (pos : ℕ) : List ℤ :=
  let counts := draws.foldl (fun acc draw =>
    let s := pysort draw
    if pos < s.length then bumpN acc (s.getD pos 0) else acc) []
  ((mostCommonN counts).take 15).map Prod.fst

/-- `PositionAnalyzer.validate_positions` (lines 483-502). -/
def validate_positions (prediction : List ℤ) (favorites : ℕ → List ℤ) : ℚ :=
  if prediction.isEmpty || prediction.length ≠ 5 then 1/2
  else
    let sorted_pred := pysort prediction
    let score := (List.range 5).foldl (fun acc pos =>
      let num := sorted_pred.getD pos 0
      let favs := favorites pos
      if num ∈ favs.take 5 then acc + 15/100
      else if num ∈ favs.take 10 then acc + 1/10
      else if num ∈ favs then acc + 5/100
      else acc) 0
    ratMin 1 score

/-- `ConfidenceScorer`'s result record.  `confidence` carries the source's
`round(confidence, 3)`. -/
structure ConfidenceReport where
  confidence : ℚ
  level : String
  factors : List (String × ℚ)
  recommendation : String

/-- `factors.get(k, 0)` over the factors dict. -/
def factorGet (factors : List (String × ℚ)) (k : String) : ℚ :=
  match factors.find? (fun p => p.1 = k) with
  | some p => p.2
  | none => 0

/-- The weighted sum of the six factors with the source's weight table —
the quantity the spec calls the confidence. -/
def claimedWeightedSum (factors : List (String × ℚ)) : ℚ :=
  factorGet factors "zone_diversity" * (15/100) +
  factorGet factors "gap_pattern" * (15/100) +
  factorGet factors "pattern_validity" * (2/10) +
  factorGet factors "position_alignment" * (15/100) +
  factorGet factors "strategy_agreement" * (25/100) +
  factorGet factors "historical_frequency" * (1/10)

/-- The confidence-level thresholds (lines 567-575). -/
def levelOf (confidence : ℚ) : String :=
  if confidence ≥ 75/100 then "high"
  else if confidence ≥ 55/100 then "medium"
  else if confidence ≥ 35/100 then "low"
  else "very_low"

/-- `ConfidenceScorer._get_recommendation` (lines 584-596). -/
def _get_recommendation (level : String) (factors : List (String × ℚ)) :
    String :=
  if level = "high" then "Strong prediction - multiple factors align well"
  else if level = "medium" then
    let weak_factors := (factors.filter (fun p => p.2 < 1/2)).map Prod.fst
    if !weak_factors.isEmpty then
      "Moderate confidence - consider improving: " ++
        String.intercalate ", " (weak_factors.take 2)
    else "Moderate confidence - balanced prediction"
  else if level = "low" then
    "Low confidence - prediction may need adjustment"
  else "Very low confidence - consider using a different strategy"

/-- `ConfidenceScorer.calculate_confidence` (lines 516-582).  The zone
analysis computed at line 526 is dead (its value is never read); the five
computed factors plus the supplied strategy agreement feed the weighted
sum.  `np.std` (used inside `analyze_gaps`) enters as `stdFn`. -/
def calculate_confidence (stdFn : List ℚ → ℚ) (prediction : List ℤ)
    (draws : List (List ℤ)) (strategy_agreement : ℚ) : ConfidenceReport :=
  if prediction.isEmpty || prediction.length ≠ 5 then
    { confidence := 0, level := "invalid", factors := [],
      recommendation := _get_recommendation "invalid" [] }
  else
    let zone_diversity : ℚ :=
      (((prediction.map get_zone).dedup).length : ℚ) / 5
    let gap_score := validate_gaps prediction (analyze_gaps stdFn draws)
    let pattern_validity := check_score prediction
    let position_score :=
      validate_positions prediction (position_favorites draws)
    let freq_score := ratMin 1 ((prediction.map (fun num =>
      ratMin ((((lastN 50 draws).filter
        (fun d => decide (num ∈ d))).length : ℚ) / 10) (2/10))).sum)
    let factors : List (String × ℚ) :=
      [("zone_diversity", zone_diversity), ("gap_pattern", gap_score),
       ("pattern_validity", pattern_validity),
       ("position_alignment", position_score),
       ("strategy_agreement", strategy_agreement),
       ("historical_frequency", freq_score)]
    let confidence :=
      zone_diversity * (15/100) + gap_score * (15/100) +
      pattern_validity * (2/10) + position_score * (15/100) +
      strategy_agreement * (25/100) + freq_score * (1/10)
    let level := levelOf confidence
    { confidence := pyround3 confidence, level := level, factors := factors,
      recommendation := _get_recommendation level factors }

/-! ### Orchestrator consensus machinery
(`EnhancedLottoOracle._ensemble_vote`, lines 2900-2954, and
`_extract_consensus_numbers`, lines 3001-3077) -/

/-- Lexicographic `≤` on the 3-component sort keys used by both consensus
sorts (`key=lambda x: (x[1], x[2], x[3])`). -/
def lex3le (x y : ℚ × ℚ × ℚ) : Prop :=
  x.1 < y.1 ∨ (x.1 = y.1 ∧ (x.2.1 < y.2.1 ∨
    (x.2.1 = y.2.1 ∧ x.2.2 ≤ y.2.2)))

instance : DecidableRel lex3le := fun x y => by
  unfold lex3le
  infer_instance

/-- Python `sorted(l, key=..., reverse=True)` for 3-component keys:
stable descending lexicographic sort. -/
def sortByKey3Desc {α : Type} (key : α → ℚ × ℚ × ℚ) (l : List α) : List α :=
  @List.insertionSort α (fun a b => lex3le (key b) (key a))
    (fun a b => inferInstanceAs (Decidable (lex3le (key b) (key a)))) l

/-- The fields of `TrendAnalyzer.get_trending_numbers`'s result that are
read downstream (`all_momentums` is never consumed). -/
structure TrendData where
  rising : List ℤ
  falling : List ℤ
  accelerating : List ℤ

/-- `strategy_weights.get(strategy, 1.0)` of
`_extract_consensus_numbers` (line 3020). -/
def strategyWeight (s : String) : ℚ :=
  if s = "ml" then 1
  else if s = "genetic" then 12/10
  else if s = "pattern" then 11/10
  else if s = "intelligence" then 13/10
  else if s = "ensemble" then 1
  else 1

/-- The weighted per-number counter of `_extract_consensus_numbers`
(lines 3018-3031): strategies other than the reserved `two_sure` /
`three_direct` keys contribute their weight once per occurrence of an
in-range number; keys appear in first-occurrence order. -/
def consensusCount (predictions : List (String × List (List ℤ))) :
    List (ℤ × ℚ) :=
  predictions.foldl (fun acc p =>
    if p.1 = "two_sure" ∨ p.1 = "three_direct" then acc
    else p.2.foldl (fun acc2 pred =>
      if pred.isEmpty then acc2
      else pred.foldl (fun acc3 num =>
        if 1 ≤ num ∧ num ≤ 90 then bumpQ acc3 num (strategyWeight p.1)
        else acc3) acc2) acc) []

/-- The recency boost (lines 3033-3044): 0.3 for the top-10 rising
numbers plus 0.2 for the top-10 accelerating numbers; 0 for every number
when the trend data is the empty dict. -/
def recencyBoost (trend : Option TrendData) (num : ℤ) : ℚ :=
  match trend with
  | none => 0
  | some t =>
    (if num ∈ t.rising.take 10 then 3/10 else 0) +
    (if num ∈ t.accelerating.take 10 then 2/10 else 0)

/-- The scored entries of `_extract_consensus_numbers` (lines 3048-3064),
in counter insertion order: each number carries its sort key
`(consensus*100 + weighted count + boost*10, consensus, weighted count)`
(the raw boost is also stored by the source but never used for sorting). -/
def consensusScores (trend : Option TrendData)
    (predictions : List (String × List (List ℤ))) :
    List (ℤ × (ℚ × ℚ × ℚ)) :=
  (consensusCount predictions).map (fun p =>
    let consensus_count := (((predictions.filter (fun q =>
      !(decide (q.1 = "two_sure") || decide (q.1 = "three_direct")) &&
      q.2.any (fun pred => !pred.isEmpty && decide (p.1 ∈ pred)))).map
        Prod.fst).dedup).length
    let boost := recencyBoost trend p.1
    (p.1, ((consensus_count : ℚ) * 100 + p.2 + boost * 10,
      (consensus_count : ℚ), p.2)))

/-- `EnhancedLottoOracle._extract_consensus_numbers` (lines 3001-3077). -/
def _extract_consensus_numbers (trend : Option TrendData)
    (predictions : List (String × List (List ℤ))) (n_numbers : ℕ) :
    List ℤ :=
  if predictions.isEmpty then []
  else
    let sorted := sortByKey3Desc (fun p => p.2)
      (consensusScores trend predictions)
    let result := (sorted.take n_numbers).map Prod.fst
    -- the fill loop re-reads the same (in-place sorted) list, so it can
    -- only add entries when the list itself is shorter than `n_numbers`
    let result2 :=
      if result.length < n_numbers then
        result ++ ((sorted.drop result.length).map Prod.fst).take
          (n_numbers - result.length)
      else result
    pysort result2

/-- `EnhancedLottoOracle._ensemble_vote` (lines 2900-2954). -/
def _ensemble_vote (predictions : List (List ℤ)) : List ℤ :=
  if predictions.isEmpty then []
  else
    let strategy_count := predictions.foldl
      (fun acc pred => pred.foldl (fun a num => bumpN a num) acc) []
    let votes := predictions.enum.foldl (fun acc ip =>
      let weight : ℚ := if ip.1 < 4 then
          ([1, 12/10, 11/10, 13/10] : List ℚ).getD ip.1 1
        else 1
      ip.2.foldl (fun a num =>
        bumpQ a num (weight + (getN strategy_count num : ℚ) * (5/10)))
        acc) []
    let number_scores := votes.map (fun p =>
      let consensus_score : ℚ := (getN strategy_count p.1 : ℚ)
      let vote_score := p.2
      (p.1, (consensus_score * 10 + vote_score, consensus_score,
        vote_score)))
    let sorted := sortByKey3Desc (fun p => p.2) number_scores
    let selected := (sorted.take 5).map Prod.fst
    let selected2 :=
      if selected.length < 5 then
        let remaining := (pyrange 1 91).filter
          (fun n => !(decide (n ∈ selected)))
        let remaining_scores := remaining.map (fun n => (n, getQ votes n))
        selected ++ ((sortByKeyDesc (fun p => p.2)
          remaining_scores).take (5 - selected.length)).map Prod.fst
      else selected
    pysort selected2

/-! ### generate_predictions, strategy 'intelligence' (lines 2368-2477)

The `IntelligenceEngine` is imported from a module that is absent from
`src/`, so it enters the embedding as an abstract interface whose
construction and every operation may fail (`Except String`); what is
verified is the catch-and-fallback structure of `generate_predictions`
itself, for every possible behaviour of the external engine. -/

/-- The frequency-based fallback used throughout `generate_predictions`
(lines 2376-2383, 2391-2398, 2463-2472): flatten the historical draws,
count, take the five most common, sort ascending. -/
def freqFallback (historical : List (List ℤ)) : List ℤ :=
  pysort (((mostCommonN (counterOf
    (historical.foldl (fun acc draw => acc ++ draw) []))).take 5).map
    Prod.fst)

/-- Abstract interface of the external IntelligenceEngine: each operation
may raise (modelled as `Except.error`). -/
structure IntelEngine where
  personaTickets : String → Except String (List (List ℤ))
  scoreTicket : List ℤ → Except String ℚ
  predictBalanced : Except String (List ℤ)
  unifiedScore : ℤ → Except String ℚ

/-- `sorted(all_scores.items(), key=lambda x: x[1], reverse=True)[:5]` over
`{k: compute_unified_score(k) for k in range(1, 91)}`, then
`sorted([n for n, _ in top_5])` (lines 2440-2444 and 2448-2452). -/
def top5ByUnifiedScore (eng : IntelEngine) : Except String (List ℤ) := do
  let scores ← (pyrange 1 91).mapM (fun k => do
    let s ← eng.unifiedScore k
    pure (k, s))
  pure (pysort (((sortByKeyDesc (fun p : ℤ × ℚ => p.2) scores).take 5).map
    Prod.fst))

/-- Body of the `try:` block at lines 2401-2456: collect persona tickets
(per-persona failures are skipped, line 2418), score and rank them, or
fall back to the balanced persona and then to the unified-score top 5.
An uncaught `raise` is an `Except.error`. -/
def intelligenceTryBlock (eng : IntelEngine) :
    Except String (List (List ℤ)) :=
  let all_tickets := (["balanced", "structural_anchor",
      "machine_memory_hunter", "cluster_rider",
      "breakout_speculator"] : List String).foldl
    (fun acc p =>
      match eng.personaTickets p with
      | .ok ts => if ts.isEmpty then acc else acc ++ ts
      | .error _ => acc) []
  if all_tickets.isEmpty then
    match eng.predictBalanced with
    | .ok t =>
      if t.length = 5 then .ok [t]
      else
        match top5ByUnifiedScore eng with
        | .ok top5 => .ok [top5]
        | .error _ =>
          match top5ByUnifiedScore eng with
          | .ok top5 => .ok [top5]
          | .error _ => .ok [[1, 2, 3, 4, 5]]
    | .error _ =>
      match top5ByUnifiedScore eng with
      | .ok top5 => .ok [top5]
      | .error _ => .ok [[1, 2, 3, 4, 5]]
  else
    match all_tickets.mapM (fun t => do
        let s ← eng.scoreTicket t
        pure (t, s)) with
    | .ok scored =>
      match sortByKeyDesc (fun p : List ℤ × ℚ => p.2) scored with
      | [] => .error "No scored tickets available"
      | p :: _ => .ok [p.1]
    | .error e => .error e

/-- `generate_predictions(strategy='intelligence')`, lines 2368-2477:
`machine_draws` of `None` or `[]` is falsy and triggers the frequency
fallback WITHOUT raising (line 2374 "Don't raise"); a length mismatch
does the same (line 2390); engine construction (`mkEngine`) and the whole
try block are guarded by the `except` at line 2457, which again falls
back to frequency. -/
def generate_predictions_intelligence
    (mkEngine : Except String IntelEngine)
    (historical : List (List ℤ))
    (machine_draws : Option (List (List ℤ))) :
    Except String (List (String × List (List ℤ))) :=
  let fallback : List (String × List (List ℤ)) :=
    [("intelligence", [freqFallback historical])]
  match machine_draws with
  | none => .ok fallback
  | some md =>
    if md.isEmpty then .ok fallback
    else if md.length ≠ historical.length then .ok fallback
    else
      match mkEngine >>= intelligenceTryBlock with
      | .ok preds => .ok [("intelligence", preds)]
      | .error _ => .ok fallback


/-! ### Ambient randomness, yearly-analyzer construction, and the
'yearly' strategy (claim C1)

Python's global `random` module is modelled as a stream of idealized
uniform deviates in [0,1): a generator `g : Gen` with a cursor `i : ℕ`;
`random.random()` returns `g i` and advances the cursor, and
`random.seed(s)` replaces the ambient stream by `prngFn s` at cursor 0
for an abstract `prngFn`.  Engine construction (`__init__` →
`_initialize_system` → `yearly_analyzer.analyze`, lines 2226-2232) runs
under the AMBIENT stream: `generate_predictions` only seeds at line
2253, after construction has finished. -/

def Gen : Type := ℕ → ℚ

/-- Cumulative sums, `itertools.accumulate(weights)`. -/
def cumSums (ws : List ℚ) : List ℚ :=
  (ws.foldl (fun st w => (st.1 + w, st.2 ++ [st.1 + w])) ((0 : ℚ), [])).2

/-- `bisect.bisect(l, x, 0, hi)` on a nondecreasing list: the number of
entries among the first `hi` that are ≤ x. -/
def bisectRight (l : List ℚ) (x : ℚ) (hi : ℕ) : ℕ :=
  ((l.take hi).filter (fun c => decide (c ≤ x))).length

/-- `random.choices(population, weights=weights)[0]`, as CPython
implements it: draw one uniform `u` and return the element at index
`bisect(cum_weights, u*total, 0, n-1)`; the cursor advances by one. -/
def randomChoices1 (population : List ℤ) (weights : List ℚ) (g : Gen)
    (i : ℕ) : ℤ × ℕ :=
  let cum := cumSums weights
  let total := cum.getLastD 0
  (population.getD (bisectRight cum (g i * total) (population.length - 1))
    0, i + 1)

/-- The selection loop of `predict_with_yearly_patterns`, lines
2009-2017: five rounds of position-weighted `random.choices` over the
remaining candidates, the chosen element removed each time
(`list.remove` drops the first occurrence, `List.erase`). -/
def choose5 : ℕ → List ℤ → List ℤ → Gen → ℕ → List ℤ × ℕ
  | 0, _, acc, _, i => (acc, i)
  | fuel + 1, remaining, acc, g, i =>
    if remaining.isEmpty then (acc, i)
    else
      let weights := (List.range remaining.length).map
        (fun k => (1 : ℚ) / ((k : ℚ) + 1))
      let p := randomChoices1 remaining weights g i
      choose5 fuel (remaining.erase p.1) (acc ++ [p.1]) g p.2

/-- Append a draw to a year's bucket, keeping first-appearance key order
(a Python dict). -/
def yearAppend (m : List (ℤ × List (List ℤ))) (y : ℤ) (d : List ℤ) :
    List (ℤ × List (List ℤ)) :=
  if m.any (fun p => p.1 = y) then
    m.map (fun p => if p.1 = y then (p.1, p.2 ++ [d]) else p)
  else m ++ [(y, [d])]

/-- `organize_by_year(draws, None, None)` — the dates-absent branch,
lines 1613-1650: with fewer than 300 draws all land in the current year,
otherwise each block of 300 goes one further year back; an empty result
falls back to `{current_year: draws}`. -/
def organize_by_year (draws : List (List ℤ)) (currentYear : ℤ) :
    List (ℤ × List (List ℤ)) :=
  let draws_per_year := if draws.length < 300 then draws.length else 300
  let m := draws.enum.foldl (fun m id =>
    yearAppend m (currentYear - ((id.1 / draws_per_year : ℕ) : ℤ)) id.2)
    []
  if m.isEmpty then [(currentYear, draws)] else m

/-- Hot numbers of one year (`calculate_yearly_frequencies`, lines
1664-1666): the 15 most frequent, count-descending, ties in
first-appearance order. -/
def yearlyHotNumbers (draws : List (List ℤ)) : List ℤ :=
  ((mostCommonN (counterOf (draws.foldl (fun acc d => acc ++ d)
    []))).take 15).map Prod.fst

/-- A cross-year pattern dict: type, numbers, confidence. -/
structure YPattern where
  ptype : String
  numbers : List ℤ
  confidence : ℚ

/-- The RETURN VALUE of `detect_cross_year_patterns` in single-year mode
(lines 1676-1692): with fewer than two years the only pattern is
'stable_foundation' built from the top-10 hot numbers with confidence
0.6.  Crucially, this branch returns at line 1692 WITHOUT executing the
`self.cross_year_patterns = patterns` assignment (line 1749, multi-year
branch only), so the analyzer field keeps its initial `[]` (line 1577).
The multi-year branch is not exercised by any claim; the pipeline below
returns `none` there. -/
def detect_cross_year_patterns_single
    (yearly_data : List (ℤ × List (List ℤ))) : List YPattern :=
  match yearly_data with
  | [(_, draws)] =>
    let hot := yearlyHotNumbers draws
    if hot.isEmpty then []
    else [{ ptype := "stable_foundation", numbers := hot.take 10,
            confidence := 3/5 }]
  | _ => []

/-- `pattern_weights.get(pattern_type, 0.1)` (lines 1927-1933). -/
def patternWeight (t : String) : ℚ :=
  if t = "stable_foundation" then 1/4
  else if t = "recurring_hot" then 1/4
  else if t = "trending" then 1/5
  else if t = "cold_to_hot" then 3/20
  else if t = "cyclical" then 3/20
  else 1/10

/-- `predict_with_yearly_patterns(current_year_draws, num_predictions=5,
ml_trained=False)` (lines 1873-2060), the path taken whenever fewer than
two years of data exist (yearly ML untrained, so `ml_prediction` stays
`None`).  The candidate filter at line 1994 compares an int against a
LIST of lists (`n not in [p.get('numbers', []) for p in predictions]`),
which is vacuously true in Python, so candidates are just the top-30
weighted numbers.  Only the 'numbers' field of each prediction dict is
kept: it is the only field the 'yearly' strategy reads. -/
def predict_with_yearly_patterns
    (yearly_data : List (ℤ × List (List ℤ)))
    (patterns : List YPattern)
    (current_year_draws : List (List ℤ))
    (g : Gen) (i : ℕ) : List (List ℤ) × ℕ :=
  let weighted0 : List (ℤ × ℚ) := patterns.foldl (fun acc p =>
    p.numbers.foldl (fun a num =>
      bumpQ a num (patternWeight p.ptype * p.confidence)) acc) []
  let weighted1 :=
    if 10 ≤ current_year_draws.length then
      (counterOf (current_year_draws.foldl (fun acc d => acc ++ d)
        [])).foldl (fun a nc =>
          bumpQ a nc.1 ((nc.2 : ℚ) / (current_year_draws.length : ℚ) *
            (3/10))) weighted0
    else weighted0
  let weighted2 :=
    if weighted1.isEmpty then
      let all_draws := yearly_data.foldl (fun acc yd => acc ++ yd.2) []
      if all_draws.isEmpty then weighted1
      else (counterOf (all_draws.foldl (fun acc d => acc ++ d) [])).map
        (fun nc => (nc.1, (nc.2 : ℚ) / (all_draws.length : ℚ)))
    else weighted1
  let sorted_numbers := mostCommonQ weighted2
  let loop := (List.range 5).foldl (fun (st : List (List ℤ) × ℕ) _ =>
    let preds := st.1
    let candidates0 := (sorted_numbers.take 30).map Prod.fst
    let candidates :=
      if candidates0.length < 5 then
        let remaining_nums := (pyrange 1 91).filter (fun n =>
          !(preds.any (fun p => p.contains n)) && !(candidates0.contains n))
        candidates0 ++ remaining_nums.take (5 - candidates0.length)
      else candidates0
    if 5 ≤ candidates.length then
      let nj := choose5 5 candidates [] g st.2
      (preds ++ [pysort nj.1], nj.2)
    else st) ([], i)
  if loop.1.isEmpty then
    let all_draws := yearly_data.foldl (fun acc yd => acc ++ yd.2) []
    if all_draws.isEmpty then ([[15, 30, 45, 60, 75]], loop.2)
    else ([freqFallback all_draws], loop.2)
  else loop

/-- `YearlyPatternAnalyzer.analyze(draws, None, None)` (lines 2078-2131),
restricted to the single-year case (fewer than two organized years, so
`ml_trained` is False): organize, detect patterns, pick the newest
year's draws, and predict under the ambient stream.  The pattern list
`detect_cross_year_patterns` RETURNS (bound to the local `patterns` at
line 2100, used only for the result's 'patterns' key) is never stored:
`self.cross_year_patterns` stays `[]` in single-year mode, and THAT is
what `predict_with_yearly_patterns` reads at line 1943 — so the
prediction step always takes its line-1962 frequency fallback here.
With two or more years the ML-training path would run; no claim
exercises it and the embedding returns `none` there. -/
def yearlyAnalyze (draws : List (List ℤ)) (currentYear : ℤ)
    (g : Gen) (i : ℕ) : Option (List (List ℤ) × ℕ) :=
  let yd := organize_by_year draws currentYear
  if yd.length < 2 then
    let _patterns := detect_cross_year_patterns_single yd
    let cross_year_patterns : List YPattern := []
    let current_year := match yd.map Prod.fst with
      | [] => currentYear
      | k :: ks => ks.foldl (fun a b => if a ≤ b then b else a) k
    let cyd := match yd.find? (fun p => p.1 = current_year) with
      | some p => p.2
      | none => []
    some (predict_with_yearly_patterns yd cross_year_patterns cyd g i)
  else none

/-- Lexicographic `≤` on integer lists, Python's tuple comparison. -/
def lexLe : List ℤ → List ℤ → Bool
  | [], _ => true
  | _ :: _, [] => false
  | a :: as, b :: bs =>
    if a < b then true else if b < a then false else lexLe as bs

/-- `sorted([tuple(sorted(d)) for d in self.historical])` (line 2251):
the canonical dataset the seed is derived from. -/
def canonicalData (draws : List (List ℤ)) : List (List ℤ) :=
  @List.insertionSort (List ℤ) (fun a b => lexLe a b = true)
    (fun a b => inferInstanceAs (Decidable (lexLe a b = true)))
    (draws.map pysort)

/-- `int(hashlib.md5((data_str + strategy).encode()).hexdigest()[:8], 16)
% (2**31)` (line 2252): md5 enters as an abstract function of the
canonical dataset and the strategy name. -/
def seedOf (md5fn : List (List ℤ) → String → ℕ)
    (draws : List (List ℤ)) (strategy : String) : ℕ :=
  md5fn (canonicalData draws) strategy % 2 ^ 31

/-- The repair pool of the anti-pattern pass (lines 2568-2572):
`list(range(1,91))`, reordered to put the top-20 rising trend numbers
first when `self._trend_data` is a non-empty dict (`none` models the
empty dict left by a failed trend analysis, line 2217). -/
def goodPool (trend : Option TrendData) : List ℤ :=
  match trend with
  | none => pyrange 1 91
  | some t =>
    let rising := t.rising.take 20
    rising ++ (pyrange 1 91).filter (fun n => !(rising.contains n))

/-- The anti-pattern filtering pass over the results dict (lines
2554-2581): every 5-number prediction that fails `check_patterns` is
repaired with `fix_prediction` over the trend-ordered pool; reserved
keys and malformed entries pass through unchanged. -/
def repairPass (trend : Option TrendData)
    (results : List (String × List (List ℤ))) :
    List (String × List (List ℤ)) :=
  results.map (fun mp =>
    if mp.1 == "two_sure" || mp.1 == "three_direct" || mp.1 == "_confidence"
    then mp
    else (mp.1, mp.2.map (fun pred =>
      if pred.length = 5 then
        if check_is_valid pred then pred
        else fix_prediction pred (goodPool trend)
      else pred)))

/-- `len(set(pred) & set(other_pred))` (line 2620). -/
def overlapCount (pred other : List ℤ) : ℕ :=
  ((pred.dedup).filter (fun n => other.contains n)).length

/-- `confidence_scores[method] = conf` (line 2627): Python dict
assignment, overwriting in place or appending. -/
def setConf (cs : List (String × ConfidenceReport)) (k : String)
    (v : ConfidenceReport) : List (String × ConfidenceReport) :=
  if cs.any (fun p => p.1 = k) then
    cs.map (fun p => if p.1 = k then (k, v) else p)
  else cs ++ [(k, v)]

/-- The confidence-scoring pass (lines 2599-2632): for every 5-number
prediction under a non-reserved key, strategy agreement is the summed
pairwise overlap/5 against every non-reserved prediction list, divided
by `max(total_strategies, 1)`, and `calculate_confidence` is called on
it; the scores dict keeps the last score written per method. -/
def confidencePass (stdFn : List ℚ → ℚ) (historical : List (List ℤ))
    (results : List (String × List (List ℤ))) :
    List (String × ConfidenceReport) :=
  let nonReserved := results.filter (fun mp =>
    !(mp.1 == "two_sure" || mp.1 == "three_direct" ||
      mp.1 == "_confidence"))
  let total_strategies := nonReserved.length
  results.foldl (fun cs mp =>
    if mp.1 == "two_sure" || mp.1 == "three_direct" ||
        mp.1 == "_confidence" then cs
    else mp.2.foldl (fun cs2 pred =>
      if pred.length = 5 then
        let agreement : ℚ := nonReserved.foldl (fun a op =>
          op.2.foldl (fun a2 opred =>
            if opred.isEmpty then a2
            else a2 + (overlapCount pred opred : ℚ) / 5) a) 0
        let strategy_agreement := agreement / (max total_strategies 1 : ℕ)
        setConf cs2 mp.1
          (calculate_confidence stdFn pred historical strategy_agreement)
      else cs2) cs) []

/-- The full return value of `generate_predictions`: the Python dict
holds number-list values under strategy / 'two_sure' / 'three_direct'
keys plus the heterogeneous '_confidence' entry, split here into two
fields. -/
structure OracleResults where
  preds : List (String × List (List ℤ))
  confidence : List (String × ConfidenceReport)

/-- `generate_predictions(strategy='yearly')` (lines 2241-2260,
2479-2538 and the shared tail 2554-2646).  At entry the ambient stream
`(g, i)` is DISCARDED by `random.seed(seed)` (line 2253) and replaced by
`prngFn seed` at cursor 0; the branch and its tail consume no further
randomness themselves: the fallback subroutines `_ml_based_prediction`,
`_boost_with_yearly_patterns` and `_pattern_based_prediction` enter as
abstract values (they run only when the stored yearly analysis is
unusable, and any randomness they use comes from the freshly seeded
stream, a function of the seed alone).  The tail applies the
anti-pattern repair, adds the non-empty 'two_sure'/'three_direct'
consensus extracts, and stores the confidence scores; the
`prediction_history.append` at line 2638 mutates the engine but is not
part of the return value and is never read by later predictions. -/
def generate_predictions_yearly
    (historical : List (List ℤ))
    (yearlyPredictions : Option (List (List ℤ)))
    (mlPred : List ℤ) (boostFn : List ℤ → List ℤ) (patPred : List ℤ)
    (trend : Option TrendData) (stdFn : List ℚ → ℚ)
    (md5fn : List (List ℤ) → String → ℕ) (prngFn : ℕ → Gen)
    (g : Gen) (i : ℕ) : OracleResults :=
  let seed := seedOf md5fn historical "yearly"
  let _seeded : Gen × ℕ := (prngFn seed, 0)
  let yearly_pred0 : Option (List ℤ) :=
    match yearlyPredictions with
    | some (best :: _) => if best.length = 5 then some best else none
    | _ => none
  let yearly_pred1 : Option (List ℤ) :=
    match yearly_pred0 with
    | some p => some p
    | none => if mlPred.length = 5 then some (boostFn mlPred) else none
  let yearly_pred2 : List ℤ :=
    match yearly_pred1 with
    | some p => if p.length = 5 then p else patPred
    | none => patPred
  let yearly_pred3 : List ℤ :=
    if yearly_pred2.length = 5 then yearly_pred2
    else freqFallback historical
  let results0 : List (String × List (List ℤ)) :=
    if yearly_pred3.length = 5 ∧ (∀ n ∈ yearly_pred3, 1 ≤ n ∧ n ≤ 90)
    then [("yearly", [yearly_pred3])]
    else [("yearly", [[10, 25, 45, 65, 80]])]
  let results1 := repairPass trend results0
  let two_sure := _extract_consensus_numbers trend results1 2
  let three_direct := _extract_consensus_numbers trend results1 3
  let results2 := results1 ++
    (if two_sure.isEmpty then [] else [("two_sure", [two_sure])]) ++
    (if three_direct.isEmpty then []
     else [("three_direct", [three_direct])])
  { preds := results2,
    confidence := confidencePass stdFn historical results2 }

/-- Fresh-engine pipeline for the 'yearly' strategy: construct
`EnhancedLottoOracle(draws)` under the ambient stream `(g, i)` — running
`yearly_analyzer.analyze` (line 2228), which consumes ambient randomness
— then call `generate_predictions('yearly')` on the stored analysis.
`none` outside the embedded single-year case. -/
def engineCallYearly (draws : List (List ℤ)) (currentYear : ℤ)
    (mlPred : List ℤ) (boostFn : List ℤ → List ℤ) (patPred : List ℤ)
    (trend : Option TrendData) (stdFn : List ℚ → ℚ)
    (md5fn : List (List ℤ) → String → ℕ) (prngFn : ℕ → Gen)
    (g : Gen) (i : ℕ) : Option OracleResults :=
  (yearlyAnalyze draws currentYear g i).map (fun pr =>
    generate_predictions_yearly draws (some pr.1) mlPred boostFn patPred
      trend stdFn md5fn prngFn g pr.2)


/-! ## Theorems -/

theorem pysort_perm (l : List ℤ) : (pysort l).Perm l :=
  List.perm_insertionSort _ l

theorem pysort_length (l : List ℤ) : (pysort l).length = l.length :=
  (pysort_perm l).length_eq

theorem pysort_sorted (l : List ℤ) : List.Sorted (· ≤ ·) (pysort l) :=
  List.sorted_insertionSort _ l

theorem fixRound_length (pool result : List ℤ) :
    (fixRound pool result).length = result.length := by
  unfold fixRound
  dsimp only
  split_ifs <;> simp [List.length_set, pysort_length]

theorem mem_pysort {a : ℤ} {l : List ℤ} : a ∈ pysort l ↔ a ∈ l := (pysort_perm l).mem_iff

theorem pysort_nodup {l : List ℤ} (h : l.Nodup) : (pysort l).Nodup :=
  (pysort_perm l).nodup_iff.mpr h

theorem nodup_set {l : List ℤ} {i : ℕ} {v : ℤ} (hl : l.Nodup) (hv : v ∉ l) :
    (l.set i v).Nodup := by
  induction l generalizing i with
  | nil => simp
  | cons a t ih =>
    rcases List.nodup_cons.mp hl with ⟨ha, ht⟩
    cases i with
    | zero =>
      refine List.nodup_cons.mpr ⟨fun hm => hv (List.mem_cons_of_mem a hm), ht⟩
    | succ n =>
      refine List.nodup_cons.mpr
        ⟨?_, ih ht (fun hm => hv (List.mem_cons_of_mem a hm))⟩
      intro hmem
      rcases List.mem_or_eq_of_mem_set hmem with hmm | hq
      · exact ha hmm
      · exact hv (hq ▸ List.mem_cons_self a t)

theorem getD_mem {l : List ℤ} {i : ℕ} (h : i < l.length) : l.getD i 0 ∈ l := by
  rw [List.getD_eq_getElem l 0 h]; exact List.getElem_mem h

theorem length_pos_of_isEmpty_ne {l : List ℤ} (h : ¬ l.isEmpty = true) :
    0 < l.length := by
  cases l with
  | nil => simp at h
  | cons a t => simp

theorem getD_filter_spec (pool base : List ℤ) (P : ℤ → Bool) (k : ℕ)
    (hk : k < (pool.filter (fun n => P n && !(decide (n ∈ base)))).length) :
    (pool.filter (fun n => P n && !(decide (n ∈ base)))).getD k 0 ∈ pool ∧
    (pool.filter (fun n => P n && !(decide (n ∈ base)))).getD k 0 ∉ base := by
  have hmem := getD_mem hk
  rcases List.mem_filter.mp hmem with ⟨hp, hcond⟩
  rw [Bool.and_eq_true, Bool.not_eq_true', decide_eq_false_iff_not] at hcond
  exact ⟨hp, hcond.2⟩

theorem fixRound_nodup {pool result : List ℤ} (h : result.Nodup) :
    (fixRound pool result).Nodup := by
  unfold fixRound
  dsimp only
  split_ifs <;>
    first
      | exact h
      | exact pysort_nodup h
      | exact nodup_set h
          ((getD_filter_spec _ _ _ _
            (Nat.div_lt_self (length_pos_of_isEmpty_ne (by assumption)) (by norm_num))).2)
      | exact nodup_set (pysort_nodup h)
          ((getD_filter_spec _ _ _ _ (length_pos_of_isEmpty_ne (by assumption))).2)
      | exact nodup_set (pysort_nodup h)
          ((getD_filter_spec _ _ _ _
            (Nat.sub_lt (length_pos_of_isEmpty_ne (by assumption)) one_pos)).2)

theorem fixRound_mem {pool result : List ℤ} {x : ℤ} (hx : x ∈ fixRound pool result) :
    x ∈ result ∨ x ∈ pool := by
  unfold fixRound at hx
  dsimp only at hx
  split_ifs at hx <;>
    first
      | exact Or.inl hx
      | exact Or.inl (mem_pysort.mp hx)
      | (rcases List.mem_or_eq_of_mem_set hx with hm | hq <;>
          first
            | exact Or.inl hm
            | exact Or.inl (mem_pysort.mp hm)
            | exact Or.inr (hq.symm ▸ (getD_filter_spec _ _ _ _
                (Nat.div_lt_self (length_pos_of_isEmpty_ne (by assumption)) (by norm_num))).1)
            | exact Or.inr (hq.symm ▸ (getD_filter_spec _ _ _ _
                (length_pos_of_isEmpty_ne (by assumption))).1)
            | exact Or.inr (hq.symm ▸ (getD_filter_spec _ _ _ _
                (Nat.sub_lt (length_pos_of_isEmpty_ne (by assumption)) one_pos)).1))

theorem fixLoop_length (pool : List ℤ) (k : ℕ) (result : List ℤ) :
    (fixLoop pool k result).length = result.length := by
  induction k generalizing result with
  | zero => rfl
  | succ n ih =>
    unfold fixLoop
    split_ifs
    · rfl
    · rw [ih (fixRound pool result), fixRound_length]

theorem fixLoop_nodup (pool : List ℤ) (k : ℕ) {result : List ℤ}
    (h : result.Nodup) : (fixLoop pool k result).Nodup := by
  induction k generalizing result with
  | zero => exact h
  | succ n ih =>
    unfold fixLoop
    split_ifs
    · exact h
    · exact ih (fixRound_nodup h)

theorem fixLoop_mem (pool : List ℤ) (k : ℕ) {result : List ℤ} {x : ℤ}
    (hx : x ∈ fixLoop pool k result) : x ∈ result ∨ x ∈ pool := by
  induction k generalizing result with
  | zero => exact Or.inl hx
  | succ n ih =>
    unfold fixLoop at hx
    split_ifs at hx
    · exact Or.inl hx
    · rcases ih hx with hm | hp
      · exact fixRound_mem hm
      · exact Or.inr hp

/-- Claim C9: `fix_prediction` maps a 5-element duplicate-free candidate to a
sorted 5-element duplicate-free list whose members come from the input
candidate or the supplied pool (replacements are drawn only from pool
members not already present), but validity on exit is not guaranteed:
`[10,20,30,40,50]` is still invalid after the 10-round limit. -/
theorem fix_prediction_invariants :
    (∀ (prediction number_pool : List ℤ),
      prediction.length = 5 → prediction.Nodup →
      (fix_prediction prediction number_pool).length = 5 ∧
      (fix_prediction prediction number_pool).Nodup ∧
      List.Sorted (· ≤ ·) (fix_prediction prediction number_pool) ∧
      (∀ x ∈ fix_prediction prediction number_pool,
        x ∈ prediction ∨ x ∈ number_pool)) ∧
    ¬ (check_is_valid (fix_prediction [10, 20, 30, 40, 50] (pyrange 1 91)) = true) := by
  constructor
  · intro prediction pool hlen hnd
    refine ⟨?_, ?_, ?_, ?_⟩
    · rw [fix_prediction, pysort_length, fixLoop_length, hlen]
    · exact pysort_nodup (fixLoop_nodup pool 10 hnd)
    · exact pysort_sorted _
    · intro x hx
      exact fixLoop_mem pool 10 (mem_pysort.mp hx)
  · decide

/-- Witness for claim C9's universally quantified part, at the concrete
candidate `[46,1,2,3,4]` with the full pool `1..90`. -/
theorem fix_prediction_invariants_witness :
    (fix_prediction [46, 1, 2, 3, 4] (pyrange 1 91)).length = 5 ∧
    (fix_prediction [46, 1, 2, 3, 4] (pyrange 1 91)).Nodup ∧
    List.Sorted (· ≤ ·) (fix_prediction [46, 1, 2, 3, 4] (pyrange 1 91)) ∧
    (∀ x ∈ fix_prediction [46, 1, 2, 3, 4] (pyrange 1 91),
      x ∈ ([46, 1, 2, 3, 4] : List ℤ) ∨ x ∈ pyrange 1 91) :=
  fix_prediction_invariants.1 [46, 1, 2, 3, 4] (pyrange 1 91)
    (by decide) (by decide)

/-- Counterexample to claim C4 as stated: on the valid-shaped candidate
`[46,1,2,3,4]` (which violates only `sum_too_low`) with pool `1..90`, the
source replaces the smallest number with the FIRST eligible pool number
above 60 (namely 61), not the median-index eligible replacement (76) that
the claim describes, so the output differs from the claimed behaviour. -/
theorem fix_prediction_not_median_for_sum_rules :
    ([46, 1, 2, 3, 4] : List ℤ).length = 5 ∧
    ([46, 1, 2, 3, 4] : List ℤ).Nodup ∧
    (∀ x ∈ ([46, 1, 2, 3, 4] : List ℤ), 1 ≤ x ∧ x ≤ 90) ∧
    fix_prediction [46, 1, 2, 3, 4] (pyrange 1 91) = [2, 3, 4, 46, 61] ∧
    fix_prediction_claimed [46, 1, 2, 3, 4] (pyrange 1 91) = [2, 3, 4, 46, 76] ∧
    fix_prediction [46, 1, 2, 3, 4] (pyrange 1 91) ≠
      fix_prediction_claimed [46, 1, 2, 3, 4] (pyrange 1 91) := by
  decide

theorem applyFirstBroken_cons (pool result : List ℤ) (r : RepairRule)
    (rs : List RepairRule) :
    applyFirstBroken pool result (r :: rs) =
      if r.broken result then applyRule pool r result
      else applyFirstBroken pool result rs := rfl

theorem fixRound_eq_applyFirstBroken (pool result : List ℤ) :
    fixRound pool result = applyFirstBroken pool result repairRules := by
  unfold repairRules
  simp only [applyFirstBroken_cons]
  unfold applyRule fixRound
  simp only [Bool.cond_false, Bool.cond_true]
  cases h1 : all_evens result
  case true =>
    cases hg : (result.filter (fun n => n % 2 = 0)).isEmpty <;> rfl
  case false =>
    cases h2 : all_odds result
    case true =>
      cases hg : (result.filter (fun n => n % 2 = 1)).isEmpty <;> rfl
    case false =>
      cases h3 : all_high result
      case true =>
        cases hg : (result.filter (fun n => 45 < n)).isEmpty <;> rfl
      case false =>
        cases h4 : all_low result
        case true =>
          cases hg : (result.filter (fun n => n ≤ 45)).isEmpty <;> rfl
        case false =>
          cases h5 : sum_too_low result
          case true => rfl
          case false =>
            cases h6 : sum_too_high result <;> rfl

theorem fixLoop_eq_fixLoopTable (pool : List ℤ) (k : ℕ) (result : List ℤ) :
    fixLoop pool k result = fixLoopTable pool k result := by
  induction k generalizing result with
  | zero => rfl
  | succ n ih =>
    unfold fixLoop fixLoopTable
    split_ifs
    · rfl
    · rw [ih, fixRound_eq_applyFirstBroken]

/-- Claim C4, amended: `fix_prediction` iterates at most 10 rounds, stopping
as soon as the candidate is valid, and each round repairs the first violated
rule of the priority table `all_evens, all_odds, all_high, all_low,
sum_too_low, sum_too_high`; the four parity/zone rules replace the first
offending number with the median-index eligible pool replacement, while
`sum_too_low` sorts the candidate and replaces its smallest number with the
FIRST eligible pool number above 60 and `sum_too_high` sorts and replaces
its largest number with the LAST eligible pool number below 30 (the rule
table `repairRules` records exactly this policy as data). -/
theorem fix_prediction_eq_table (prediction number_pool : List ℤ) :
    fix_prediction prediction number_pool =
      fix_prediction_table prediction number_pool := by
  unfold fix_prediction fix_prediction_table
  rw [fixLoop_eq_fixLoopTable]

/-- Claim C3: on fewer than 100 draws `detect_regime_change` reports
not-detected with confidence 0; otherwise it splits the list into two
halves, computes the per-metric relative change `|new-old|/(|old|+eps)`
with `eps = 1e-10`, forms the weighted change `0.3*d(sum_mean) +
0.4*d(delta_entropy) + 0.3*d(cluster_score)`, detects exactly when this
exceeds 0.25, and reports `confidence = min(weighted change, 1)` —
for every interpretation of the `np.std`/entropy library functions. -/
theorem detect_regime_change_spec (npStdFn : List ℚ → ℚ)
    (numberEntropyFn entropyFn : List ℤ → ℚ) (recent_draws : List (List ℤ)) :
    (recent_draws.length < 100 →
      detect_regime_change npStdFn numberEntropyFn entropyFn recent_draws =
        { detected := false, confidence := 0 }) ∧
    (100 ≤ recent_draws.length →
      (detect_regime_change npStdFn numberEntropyFn entropyFn
          recent_draws).detected =
        decide (weightedChange npStdFn numberEntropyFn entropyFn recent_draws
          > 1/4) ∧
      (detect_regime_change npStdFn numberEntropyFn entropyFn
          recent_draws).confidence =
        ratMin (weightedChange npStdFn numberEntropyFn entropyFn recent_draws) 1) := by
  constructor
  · intro h
    unfold detect_regime_change
    rw [if_pos h]
  · intro h
    unfold detect_regime_change weightedChange
    rw [if_neg (not_lt.mpr h)]
    exact ⟨rfl, rfl⟩

theorem ratMax_zero_nonneg (x : ℚ) : 0 ≤ ratMax 0 x := by
  unfold ratMax
  split_ifs with h
  · exact h
  · rfl

theorem ratMax_zero_min_one_le_one (x : ℚ) : ratMax 0 (ratMin 1 x) ≤ 1 := by
  unfold ratMax ratMin
  split_ifs <;> linarith

theorem ratMin_one_le (x : ℚ) : ratMin 1 x ≤ 1 := by
  unfold ratMin
  split_ifs with h
  · rfl
  · linarith

theorem ratMin_nonneg {a b : ℚ} (ha : 0 ≤ a) (hb : 0 ≤ b) : 0 ≤ ratMin a b := by
  unfold ratMin
  split_ifs <;> assumption

theorem ratMin_le_right (a b : ℚ) : ratMin a b ≤ b := by
  unfold ratMin
  split_ifs with h
  · exact h
  · rfl

theorem validate_gaps_nonneg (prediction : List ℤ) (g : Option GapAnalysis) :
    0 ≤ validate_gaps prediction g := by
  unfold validate_gaps
  split_ifs
  · rfl
  · exact ratMax_zero_nonneg _

theorem validate_gaps_le_one (prediction : List ℤ) (g : Option GapAnalysis) :
    validate_gaps prediction g ≤ 1 := by
  unfold validate_gaps
  split_ifs
  · norm_num
  · exact ratMax_zero_min_one_le_one _

theorem posScore_nonneg (favs : ℕ → List ℤ) (sorted_pred : List ℤ)
    (l : List ℕ) (acc : ℚ) (hacc : 0 ≤ acc) :
    0 ≤ l.foldl (fun acc pos =>
      let num := sorted_pred.getD pos 0
      if num ∈ (favs pos).take 5 then acc + 15/100
      else if num ∈ (favs pos).take 10 then acc + 1/10
      else if num ∈ favs pos then acc + 5/100
      else acc) acc := by
  induction l generalizing acc with
  | nil => exact hacc
  | cons x xs ih =>
    refine ih _ ?_
    dsimp only
    split_ifs <;> linarith

theorem validate_positions_nonneg (prediction : List ℤ) (favs : ℕ → List ℤ) :
    0 ≤ validate_positions prediction favs := by
  unfold validate_positions
  split_ifs
  · norm_num
  · exact ratMin_nonneg (by norm_num) (posScore_nonneg favs _ _ 0 le_rfl)

theorem validate_positions_le_one (prediction : List ℤ) (favs : ℕ → List ℤ) :
    validate_positions prediction favs ≤ 1 := by
  unfold validate_positions
  split_ifs
  · norm_num
  · exact ratMin_one_le _

theorem length_filter_cons {α : Type} (x : α) (xs : List α) (f : α → Bool) :
    ((x :: xs).filter f).length = (cond (f x) 1 0) + (xs.filter f).length := by
  cases h : f x <;> simp [List.filter_cons, h] <;> omega

/-- At most six of the ten anti-pattern rules can hold simultaneously for a
non-empty candidate: the even/odd, high/low and sum-low/sum-high pairs are
mutually exclusive, and a five-long consecutive run contains two adjacent
integers, which cannot both be multiples of 5 (or 10). -/
theorem violations_le_six (p : List ℤ) (hne : p ≠ []) :
    (violationNames p).length ≤ 6 := by
  obtain ⟨a, rest, rfl⟩ : ∃ a rest, p = a :: rest := by
    cases p with
    | nil => exact absurd rfl hne
    | cons a rest => exact ⟨a, rest, rfl⟩
  set p := a :: rest with hp
  have hsplit : (violationNames p).length =
      cond (all_evens p) 1 0 + (cond (all_odds p) 1 0 +
      (cond (all_high p) 1 0 + (cond (all_low p) 1 0 +
      (cond (all_same_decade p) 1 0 + (cond (consecutive_5 p) 1 0 +
      (cond (sum_too_low p) 1 0 + (cond (sum_too_high p) 1 0 +
      (cond (all_multiples_5 p) 1 0 +
        cond (all_multiples_10 p) 1 0)))))))) := by
    simp only [violationNames, ANTI_PATTERNS, List.length_map,
      length_filter_cons, List.filter_nil, List.length_nil]
    omega
  have hF1 : ¬(all_evens p = true ∧ all_odds p = true) := by
    rintro ⟨he, ho⟩
    rw [all_evens, List.all_eq_true] at he
    rw [all_odds, List.all_eq_true] at ho
    have h1 := he a (List.mem_cons_self a rest)
    have h2 := ho a (List.mem_cons_self a rest)
    simp only [decide_eq_true_eq] at h1 h2
    omega
  have hF2 : ¬(all_high p = true ∧ all_low p = true) := by
    rintro ⟨hh, hl⟩
    rw [all_high, List.all_eq_true] at hh
    rw [all_low, List.all_eq_true] at hl
    have h1 := hh a (List.mem_cons_self a rest)
    have h2 := hl a (List.mem_cons_self a rest)
    simp only [decide_eq_true_eq] at h1 h2
    omega
  have hF3 : ¬(sum_too_low p = true ∧ sum_too_high p = true) := by
    rintro ⟨hl, hh⟩
    rw [sum_too_low] at hl
    rw [sum_too_high] at hh
    simp only [decide_eq_true_eq] at hl hh
    omega
  have hconsec : consecutive_5 p = true → ∃ m, m ∈ p ∧ m + 1 ∈ p := by
    intro hc
    rw [consecutive_5] at hc
    cases hmin : p.min? with
    | none => rw [hmin] at hc; exact absurd hc (by simp)
    | some m =>
      rw [hmin] at hc
      have heq := of_decide_eq_true hc
      refine ⟨m, ?_, ?_⟩
      · rw [← mem_pysort, heq]; simp
      · rw [← mem_pysort, heq]; simp
  have hF45 : ¬(consecutive_5 p = true ∧ all_multiples_5 p = true) := by
    rintro ⟨hc, h5⟩
    obtain ⟨m, hm, hm1⟩ := hconsec hc
    rw [all_multiples_5, List.all_eq_true] at h5
    have h1 := h5 m hm
    have h2 := h5 (m + 1) hm1
    simp only [decide_eq_true_eq] at h1 h2
    omega
  have hF410 : ¬(consecutive_5 p = true ∧ all_multiples_10 p = true) := by
    rintro ⟨hc, h10⟩
    obtain ⟨m, hm, hm1⟩ := hconsec hc
    rw [all_multiples_10, List.all_eq_true] at h10
    have h1 := h10 m hm
    have h2 := h10 (m + 1) hm1
    simp only [decide_eq_true_eq] at h1 h2
    omega
  have e1 : cond (all_evens p) 1 0 + cond (all_odds p) 1 0 ≤ 1 := by
    cases h1 : all_evens p <;> cases h2 : all_odds p <;> simp
    exact absurd ⟨h1, h2⟩ hF1
  have e2 : cond (all_high p) 1 0 + cond (all_low p) 1 0 ≤ 1 := by
    cases h1 : all_high p <;> cases h2 : all_low p <;> simp
    exact absurd ⟨h1, h2⟩ hF2
  have e3 : cond (sum_too_low p) 1 0 + cond (sum_too_high p) 1 0 ≤ 1 := by
    cases h1 : sum_too_low p <;> cases h2 : sum_too_high p <;> simp
    exact absurd ⟨h1, h2⟩ hF3
  have e4 : cond (consecutive_5 p) 1 0 + cond (all_multiples_5 p) 1 0 ≤ 1 := by
    cases h1 : consecutive_5 p <;> cases h2 : all_multiples_5 p <;> simp
    exact absurd ⟨h1, h2⟩ hF45
  have e5 : cond (consecutive_5 p) 1 0 + cond (all_multiples_10 p) 1 0 ≤ 1 := by
    cases h1 : consecutive_5 p <;> cases h2 : all_multiples_10 p <;> simp
    exact absurd ⟨h1, h2⟩ hF410
  have e6 : cond (all_same_decade p) 1 0 ≤ 1 := by
    cases all_same_decade p <;> simp
  omega

theorem check_score_le_one (p : List ℤ) : check_score p ≤ 1 := by
  unfold check_score
  have : (0 : ℚ) ≤ ((violationNames p).length : ℚ) * (15/100) := by positivity
  linarith

theorem check_score_nonneg (p : List ℤ) (hne : p ≠ []) : 0 ≤ check_score p := by
  unfold check_score
  have hv := violations_le_six p hne
  have : ((violationNames p).length : ℚ) ≤ 6 := by exact_mod_cast hv
  linarith

theorem level_spec (c : ℚ) :
    (levelOf c = "high" ↔ 75/100 ≤ c) ∧
    (levelOf c = "medium" ↔ 55/100 ≤ c ∧ c < 75/100) ∧
    (levelOf c = "low" ↔ 35/100 ≤ c ∧ c < 55/100) ∧
    (levelOf c = "very_low" ↔ c < 35/100) := by
  unfold levelOf
  split_ifs with h1 h2 h3
  · refine ⟨iff_of_true rfl h1, ?_, ?_, ?_⟩
    · exact iff_of_false (by decide) (fun h => by obtain ⟨ha, hb⟩ := h; linarith)
    · exact iff_of_false (by decide) (fun h => by obtain ⟨ha, hb⟩ := h; linarith)
    · exact iff_of_false (by decide) (fun h => by linarith)
  · refine ⟨iff_of_false (by decide) (fun h => h1 h), ?_, ?_, ?_⟩
    · exact iff_of_true rfl ⟨h2, not_le.mp h1⟩
    · exact iff_of_false (by decide) (fun h => by obtain ⟨ha, hb⟩ := h; linarith)
    · exact iff_of_false (by decide) (fun h => by linarith)
  · refine ⟨iff_of_false (by decide) (fun h => h1 h),
      iff_of_false (by decide) (fun h => h2 h.1), ?_, ?_⟩
    · exact iff_of_true rfl ⟨h3, not_le.mp h2⟩
    · exact iff_of_false (by decide) (fun h => by linarith)
  · refine ⟨iff_of_false (by decide) (fun h => h1 h),
      iff_of_false (by decide) (fun h => h2 h.1),
      iff_of_false (by decide) (fun h => h3 h.1), ?_⟩
    exact iff_of_true rfl (not_le.mp h3)

theorem claimedWeightedSum_factors (zd gp pv pa sa hf : ℚ) :
    claimedWeightedSum [("zone_diversity", zd), ("gap_pattern", gp),
      ("pattern_validity", pv), ("position_alignment", pa),
      ("strategy_agreement", sa), ("historical_frequency", hf)] =
    zd * (15/100) + gp * (15/100) + pv * (2/10) + pa * (15/100) +
      sa * (25/100) + hf * (1/10) := rfl

theorem calculate_confidence_components (stdFn : List ℚ → ℚ)
    (prediction : List ℤ) (draws : List (List ℤ)) (strategy_agreement : ℚ)
    (hcond : ¬((prediction.isEmpty || decide (prediction.length ≠ 5)) =
      true)) :
    calculate_confidence stdFn prediction draws strategy_agreement =
      { confidence := pyround3
          ((((prediction.map get_zone).dedup).length : ℚ) / 5 * (15/100) +
           validate_gaps prediction (analyze_gaps stdFn draws) * (15/100) +
           check_score prediction * (2/10) +
           validate_positions prediction (position_favorites draws) *
             (15/100) +
           strategy_agreement * (25/100) +
           ratMin 1 ((prediction.map (fun num =>
             ratMin ((((lastN 50 draws).filter
               (fun d => decide (num ∈ d))).length : ℚ) / 10)
               (2/10))).sum) * (1/10))
        level := levelOf
          ((((prediction.map get_zone).dedup).length : ℚ) / 5 * (15/100) +
           validate_gaps prediction (analyze_gaps stdFn draws) * (15/100) +
           check_score prediction * (2/10) +
           validate_positions prediction (position_favorites draws) *
             (15/100) +
           strategy_agreement * (25/100) +
           ratMin 1 ((prediction.map (fun num =>
             ratMin ((((lastN 50 draws).filter
               (fun d => decide (num ∈ d))).length : ℚ) / 10)
               (2/10))).sum) * (1/10))
        factors :=
          [("zone_diversity",
            (((prediction.map get_zone).dedup).length : ℚ) / 5),
           ("gap_pattern",
            validate_gaps prediction (analyze_gaps stdFn draws)),
           ("pattern_validity", check_score prediction),
           ("position_alignment",
            validate_positions prediction (position_favorites draws)),
           ("strategy_agreement", strategy_agreement),
           ("historical_frequency",
            ratMin 1 ((prediction.map (fun num =>
              ratMin ((((lastN 50 draws).filter
                (fun d => decide (num ∈ d))).length : ℚ) / 10)
                (2/10))).sum))]
        recommendation := _get_recommendation
          (levelOf
            ((((prediction.map get_zone).dedup).length : ℚ) / 5 * (15/100) +
             validate_gaps prediction (analyze_gaps stdFn draws) * (15/100) +
             check_score prediction * (2/10) +
             validate_positions prediction (position_favorites draws) *
               (15/100) +
             strategy_agreement * (25/100) +
             ratMin 1 ((prediction.map (fun num =>
               ratMin ((((lastN 50 draws).filter
                 (fun d => decide (num ∈ d))).length : ℚ) / 10)
                 (2/10))).sum) * (1/10)))
          [("zone_diversity",
            (((prediction.map get_zone).dedup).length : ℚ) / 5),
           ("gap_pattern",
            validate_gaps prediction (analyze_gaps stdFn draws)),
           ("pattern_validity", check_score prediction),
           ("position_alignment",
            validate_positions prediction (position_favorites draws)),
           ("strategy_agreement", strategy_agreement),
           ("historical_frequency",
            ratMin 1 ((prediction.map (fun num =>
              ratMin ((((lastN 50 draws).filter
                (fun d => decide (num ∈ d))).length : ℚ) / 10)
                (2/10))).sum))] } := by
  unfold calculate_confidence
  rw [if_neg hcond]

/-- Claim C7, amended: for every valid 5-number candidate, draw history and
strategy-agreement value in [0,1], the confidence scorer computes exactly
the weighted sum of its six factors with weights zone 0.15, gap 0.15,
pattern 0.20, position 0.15, agreement 0.25, frequency 0.10; that sum lies
in [0,1]; the level thresholds high/medium/low/very_low are evaluated on
the unrounded sum; but the REPORTED confidence field is the weighted sum
rounded to three decimal places, not the weighted sum itself. -/
theorem calculate_confidence_spec (stdFn : List ℚ → ℚ)
    (prediction : List ℤ) (draws : List (List ℤ)) (strategy_agreement : ℚ)
    (hlen : prediction.length = 5) (hnd : prediction.Nodup)
    (hrange : ∀ x ∈ prediction, 1 ≤ x ∧ x ≤ 90)
    (hag0 : 0 ≤ strategy_agreement) (hag1 : strategy_agreement ≤ 1) :
    (calculate_confidence stdFn prediction draws
        strategy_agreement).confidence =
      pyround3 (claimedWeightedSum (calculate_confidence stdFn prediction
        draws strategy_agreement).factors) ∧
    0 ≤ claimedWeightedSum (calculate_confidence stdFn prediction draws
      strategy_agreement).factors ∧
    claimedWeightedSum (calculate_confidence stdFn prediction draws
      strategy_agreement).factors ≤ 1 ∧
    ((calculate_confidence stdFn prediction draws
        strategy_agreement).level = "high" ↔
      75/100 ≤ claimedWeightedSum (calculate_confidence stdFn prediction
        draws strategy_agreement).factors) ∧
    ((calculate_confidence stdFn prediction draws
        strategy_agreement).level = "medium" ↔
      55/100 ≤ claimedWeightedSum (calculate_confidence stdFn prediction
        draws strategy_agreement).factors ∧
      claimedWeightedSum (calculate_confidence stdFn prediction draws
        strategy_agreement).factors < 75/100) ∧
    ((calculate_confidence stdFn prediction draws
        strategy_agreement).level = "low" ↔
      35/100 ≤ claimedWeightedSum (calculate_confidence stdFn prediction
        draws strategy_agreement).factors ∧
      claimedWeightedSum (calculate_confidence stdFn prediction draws
        strategy_agreement).factors < 55/100) ∧
    ((calculate_confidence stdFn prediction draws
        strategy_agreement).level = "very_low" ↔
      claimedWeightedSum (calculate_confidence stdFn prediction draws
        strategy_agreement).factors < 35/100) := by
  have hne : prediction ≠ [] := by
    intro h
    rw [h] at hlen
    simp at hlen
  have hcond : ¬((prediction.isEmpty || decide (prediction.length ≠ 5)) =
      true) := by
    simp [List.isEmpty_iff, hlen, hne]
  rw [calculate_confidence_components stdFn prediction draws
    strategy_agreement hcond]
  dsimp only
  rw [claimedWeightedSum_factors]
  have hZ0 : (0 : ℚ) ≤ (((prediction.map get_zone).dedup).length : ℚ) / 5 := by
    positivity
  have hZ1 : (((prediction.map get_zone).dedup).length : ℚ) / 5 ≤ 1 := by
    have hsub : ((prediction.map get_zone).dedup).length ≤ 5 := by
      calc ((prediction.map get_zone).dedup).length
          ≤ (prediction.map get_zone).length :=
            (List.dedup_sublist _).length_le
        _ = prediction.length := List.length_map _ _
        _ = 5 := hlen
    have : (((prediction.map get_zone).dedup).length : ℚ) ≤ 5 := by
      exact_mod_cast hsub
    linarith
  have hG0 := validate_gaps_nonneg prediction (analyze_gaps stdFn draws)
  have hG1 := validate_gaps_le_one prediction (analyze_gaps stdFn draws)
  have hP0 := check_score_nonneg prediction hne
  have hP1 := check_score_le_one prediction
  have hPos0 := validate_positions_nonneg prediction (position_favorites draws)
  have hPos1 := validate_positions_le_one prediction (position_favorites draws)
  have hFs : (0 : ℚ) ≤ (prediction.map (fun num =>
      ratMin ((((lastN 50 draws).filter
        (fun d => decide (num ∈ d))).length : ℚ) / 10) (2/10))).sum := by
    apply List.sum_nonneg
    intro x hx
    rcases List.mem_map.mp hx with ⟨num, _, rfl⟩
    exact ratMin_nonneg (by positivity) (by norm_num)
  have hF0 : (0 : ℚ) ≤ ratMin 1 ((prediction.map (fun num =>
      ratMin ((((lastN 50 draws).filter
        (fun d => decide (num ∈ d))).length : ℚ) / 10) (2/10))).sum) :=
    ratMin_nonneg (by norm_num) hFs
  have hF1 := ratMin_one_le ((prediction.map (fun num =>
      ratMin ((((lastN 50 draws).filter
        (fun d => decide (num ∈ d))).length : ℚ) / 10) (2/10))).sum)
  refine ⟨rfl, by linarith, by linarith, ?_, ?_, ?_, ?_⟩
  · exact (level_spec _).1
  · exact (level_spec _).2.1
  · exact (level_spec _).2.2.1
  · exact (level_spec _).2.2.2

theorem extract_eq (trend : Option TrendData)
    (predictions : List (String × List (List ℤ))) (n : ℕ)
    (hp : ¬ predictions.isEmpty = true) :
    _extract_consensus_numbers trend predictions n =
      pysort (((sortByKey3Desc (fun p => p.2)
        (consensusScores trend predictions)).take n).map Prod.fst) := by
  unfold _extract_consensus_numbers
  rw [if_neg hp]
  dsimp only
  split_ifs with h
  · congr 1
    have hlen : (((sortByKey3Desc (fun p => p.2)
        (consensusScores trend predictions)).take n).map Prod.fst).length =
        min n (sortByKey3Desc (fun p => p.2)
          (consensusScores trend predictions)).length := by
      simp [List.length_take]
    have h1 : (sortByKey3Desc (fun p => p.2)
        (consensusScores trend predictions)).length < n := by
      rw [hlen] at h
      omega
    have h2 : (((sortByKey3Desc (fun p => p.2)
        (consensusScores trend predictions)).take n).map Prod.fst).length =
        (sortByKey3Desc (fun p => p.2)
          (consensusScores trend predictions)).length := by
      rw [hlen]
      omega
    rw [h2, List.drop_length]
    simp
  · rfl

/-- Claim C5: whenever the per-number consensus scores carry no ties, the
"two sure" output (top 2 by score) is a subset of the "three direct" output
(top 3 by the same score) — both are prefixes of the same stable sort. -/
theorem two_sure_subset_three_direct (trend : Option TrendData)
    (predictions : List (String × List (List ℤ)))
    (hnoties : (consensusScores trend predictions).Pairwise
      (fun a b => a.2.1 ≠ b.2.1)) :
    ∀ x ∈ _extract_consensus_numbers trend predictions 2,
      x ∈ _extract_consensus_numbers trend predictions 3 := by
  intro x hx
  by_cases hp : predictions.isEmpty = true
  · unfold _extract_consensus_numbers at hx
    rw [if_pos hp] at hx
    exact absurd hx (List.not_mem_nil x)
  · rw [extract_eq trend predictions 2 hp] at hx
    rw [extract_eq trend predictions 3 hp]
    rw [mem_pysort] at hx ⊢
    rcases List.mem_map.mp hx with ⟨p, hp2, rfl⟩
    have h23 : List.take 2 (List.take 3 (sortByKey3Desc (fun p => p.2)
        (consensusScores trend predictions))) =
        List.take 2 (sortByKey3Desc (fun p => p.2)
          (consensusScores trend predictions)) := by
      rw [List.take_take]
      have hm : (2 : ℕ) ⊓ 3 = 2 := by omega
      rw [hm]
    have hp3 : p ∈ List.take 3 (sortByKey3Desc (fun p => p.2)
        (consensusScores trend predictions)) := by
      apply List.take_subset 2
      rw [h23]
      exact hp2
    exact List.mem_map.mpr ⟨p, hp3, rfl⟩

theorem pyrange_mem {a b x : ℤ} : x ∈ pyrange a b ↔ a ≤ x ∧ x < b := by
  unfold pyrange
  rw [List.mem_map]
  constructor
  · rintro ⟨i, hi, rfl⟩
    rw [List.mem_range] at hi
    omega
  · rintro ⟨h1, h2⟩
    refine ⟨(x - a).toNat, ?_, by omega⟩
    rw [List.mem_range]
    omega

theorem pyrange_nodup (a b : ℤ) : (pyrange a b).Nodup := by
  unfold pyrange
  exact (List.nodup_range _).map (fun i j h => by omega)

theorem bumpWith_keys {ν : Type} (l : List (ℤ × ν)) (k : ℤ) (upd : ν → ν)
    (v0 : ν) :
    (bumpWith l k upd v0).map Prod.fst =
      if l.any (fun p => p.1 = k) then l.map Prod.fst
      else l.map Prod.fst ++ [k] := by
  unfold bumpWith
  split_ifs with h
  · rw [List.map_map]
    apply List.map_congr_left
    intro p _
    dsimp only [Function.comp_def]
    split_ifs <;> rfl
  · simp

theorem bumpWith_keys_nodup {ν : Type} {l : List (ℤ × ν)} {k : ℤ}
    {upd : ν → ν} {v0 : ν} (h : (l.map Prod.fst).Nodup) :
    ((bumpWith l k upd v0).map Prod.fst).Nodup := by
  rw [bumpWith_keys]
  split_ifs with ha
  · exact h
  · have hk : k ∉ l.map Prod.fst := by
      intro hm
      rcases List.mem_map.mp hm with ⟨p, hp, rfl⟩
      exact ha (List.any_eq_true.mpr ⟨p, hp, by simp⟩)
    rw [List.nodup_append]
    refine ⟨h, List.nodup_singleton k, ?_⟩
    intro x hx hx2
    rw [List.mem_singleton] at hx2
    exact hk (hx2 ▸ hx)

theorem bumpWith_keys_mem {ν : Type} {l : List (ℤ × ν)} {k : ℤ}
    {upd : ν → ν} {v0 : ν} {x : ℤ} :
    x ∈ (bumpWith l k upd v0).map Prod.fst ↔
      x ∈ l.map Prod.fst ∨ x = k := by
  rw [bumpWith_keys]
  split_ifs with ha
  · constructor
    · exact Or.inl
    · rintro (h | rfl)
      · exact h
      · rcases List.any_eq_true.mp ha with ⟨p, hp, hpk⟩
        simp only [decide_eq_true_eq] at hpk
        exact hpk ▸ List.mem_map.mpr ⟨p, hp, rfl⟩
  · simp

theorem foldl_preserve {α β : Type} (P : β → Prop) (f : β → α → β)
    (l : List α) (b : β) (hb : P b)
    (hf : ∀ b a, a ∈ l → P b → P (f b a)) : P (l.foldl f b) := by
  induction l generalizing b with
  | nil => exact hb
  | cons x xs ih =>
    exact ih (f b x) (hf b x (List.mem_cons_self x xs) hb)
      (fun b' a ha hb' => hf b' a (List.mem_cons_of_mem x ha) hb')

theorem sortByKey3Desc_perm {α : Type} (key : α → ℚ × ℚ × ℚ) (l : List α) :
    (sortByKey3Desc key l).Perm l := List.perm_insertionSort _ l

theorem sortByKeyDesc_perm {α : Type} (key : α → ℚ) (l : List α) :
    (sortByKeyDesc key l).Perm l := List.perm_insertionSort _ l

theorem select5_core (sorted : List (ℤ × (ℚ × ℚ × ℚ))) (votes : List (ℤ × ℚ))
    (hnd : (sorted.map Prod.fst).Nodup)
    (hrange : ∀ x ∈ sorted.map Prod.fst, 1 ≤ x ∧ x ≤ 90) :
    (pysort (if ((sorted.take 5).map Prod.fst).length < 5 then
        ((sorted.take 5).map Prod.fst) ++
          ((sortByKeyDesc (fun p => p.2) (((pyrange 1 91).filter
            (fun n => !(decide (n ∈ (sorted.take 5).map Prod.fst)))).map
              (fun n => (n, getQ votes n)))).take
            (5 - ((sorted.take 5).map Prod.fst).length)).map Prod.fst
      else ((sorted.take 5).map Prod.fst))).length = 5 ∧
    (pysort (if ((sorted.take 5).map Prod.fst).length < 5 then
        ((sorted.take 5).map Prod.fst) ++
          ((sortByKeyDesc (fun p => p.2) (((pyrange 1 91).filter
            (fun n => !(decide (n ∈ (sorted.take 5).map Prod.fst)))).map
              (fun n => (n, getQ votes n)))).take
            (5 - ((sorted.take 5).map Prod.fst).length)).map Prod.fst
      else ((sorted.take 5).map Prod.fst))).Nodup ∧
    List.Sorted (· ≤ ·) (pysort (if ((sorted.take 5).map Prod.fst).length < 5 then
        ((sorted.take 5).map Prod.fst) ++
          ((sortByKeyDesc (fun p => p.2) (((pyrange 1 91).filter
            (fun n => !(decide (n ∈ (sorted.take 5).map Prod.fst)))).map
              (fun n => (n, getQ votes n)))).take
            (5 - ((sorted.take 5).map Prod.fst).length)).map Prod.fst
      else ((sorted.take 5).map Prod.fst))) ∧
    (∀ n ∈ pysort (if ((sorted.take 5).map Prod.fst).length < 5 then
        ((sorted.take 5).map Prod.fst) ++
          ((sortByKeyDesc (fun p => p.2) (((pyrange 1 91).filter
            (fun n => !(decide (n ∈ (sorted.take 5).map Prod.fst)))).map
              (fun n => (n, getQ votes n)))).take
            (5 - ((sorted.take 5).map Prod.fst).length)).map Prod.fst
      else ((sorted.take 5).map Prod.fst)), 1 ≤ n ∧ n ≤ 90) := by
  set selected : List ℤ := (sorted.take 5).map Prod.fst with hseldef
  have hsel_sub : selected.Sublist (sorted.map Prod.fst) :=
    (List.take_sublist 5 sorted).map Prod.fst
  have hsel_nodup : selected.Nodup := hsel_sub.nodup hnd
  have hsel_range : ∀ x ∈ selected, 1 ≤ x ∧ x ≤ 90 :=
    fun x hx => hrange x (hsel_sub.subset hx)
  have hsel_len : selected.length = min 5 sorted.length := by
    rw [hseldef, List.length_map, List.length_take]
  by_cases hlt : selected.length < 5
  · rw [if_pos hlt]
    set remaining : List ℤ :=
      (pyrange 1 91).filter (fun n => !(decide (n ∈ selected))) with hremdef
    have hrem_nodup : remaining.Nodup := (pyrange_nodup 1 91).filter _
    have hrem_mem : ∀ x ∈ remaining, (1 ≤ x ∧ x ≤ 90) ∧ x ∉ selected := by
      intro x hx
      rcases List.mem_filter.mp hx with ⟨h1, h2⟩
      rw [Bool.not_eq_true', decide_eq_false_iff_not] at h2
      rcases pyrange_mem.mp h1 with ⟨ha, hb⟩
      exact ⟨⟨ha, by omega⟩, h2⟩
    have hrem_len : 90 ≤ remaining.length + selected.length := by
      have hsplit := List.length_eq_length_filter_add
        (l := pyrange 1 91) (fun n => decide (n ∈ selected))
      have hsub : ((pyrange 1 91).filter
          (fun n => decide (n ∈ selected))).length ≤ selected.length := by
        refine (List.subperm_of_subset ((pyrange_nodup 1 91).filter _) ?_).length_le
        intro x hx
        exact of_decide_eq_true (List.mem_filter.mp hx).2
      have hpy : (pyrange 1 91).length = 90 := rfl
      rw [hpy, ← hremdef] at hsplit
      omega
    set rs : List (ℤ × ℚ) := sortByKeyDesc (fun p => p.2)
      (remaining.map (fun n => (n, getQ votes n))) with hrsdef
    have hrs_perm : (rs.map Prod.fst).Perm remaining := by
      have h1 : (rs.map Prod.fst).Perm
          ((remaining.map (fun n => (n, getQ votes n))).map Prod.fst) :=
        (sortByKeyDesc_perm _ _).map Prod.fst
      have h2 : (remaining.map (fun n => (n, getQ votes n))).map Prod.fst =
          remaining := by
        rw [List.map_map]
        exact List.map_id _
      rw [h2] at h1
      exact h1
    have hrs_len : rs.length = remaining.length := by
      have := (sortByKeyDesc_perm (fun p : ℤ × ℚ => p.2)
        (remaining.map (fun n => (n, getQ votes n)))).length_eq
      rw [List.length_map] at this
      exact this
    set appended : List ℤ :=
      (rs.take (5 - selected.length)).map Prod.fst with happdef
    have happ_sub : appended.Sublist (rs.map Prod.fst) :=
      (List.take_sublist _ rs).map Prod.fst
    have happ_nodup : appended.Nodup :=
      happ_sub.nodup (hrs_perm.nodup_iff.mpr hrem_nodup)
    have happ_mem : ∀ x ∈ appended, x ∈ remaining :=
      fun x hx => hrs_perm.mem_iff.mp (happ_sub.subset hx)
    have happ_len : appended.length = 5 - selected.length := by
      rw [happdef, List.length_map, List.length_take]
      omega
    have hout_nodup : (selected ++ appended).Nodup := by
      rw [List.nodup_append]
      refine ⟨hsel_nodup, happ_nodup, ?_⟩
      intro x hx hx2
      exact (hrem_mem x (happ_mem x hx2)).2 hx
    have hout_len : (selected ++ appended).length = 5 := by
      rw [List.length_append, happ_len]
      omega
    have hout_range : ∀ n ∈ selected ++ appended, 1 ≤ n ∧ n ≤ 90 := by
      intro n hn
      rcases List.mem_append.mp hn with h | h
      · exact hsel_range n h
      · exact (hrem_mem n (happ_mem n h)).1
    refine ⟨?_, ?_, pysort_sorted _, ?_⟩
    · rw [pysort_length]
      exact hout_len
    · exact pysort_nodup hout_nodup
    · intro n hn
      exact hout_range n (mem_pysort.mp hn)
  · rw [if_neg hlt]
    refine ⟨?_, pysort_nodup hsel_nodup, pysort_sorted _, ?_⟩
    · rw [pysort_length]
      omega
    · intro n hn
      exact hsel_range n (mem_pysort.mp hn)

/-- Claim C8: for every non-empty list of candidate lists whose numbers lie
in [1,90], `_ensemble_vote` returns exactly 5 distinct integers in [1,90],
sorted ascending. -/
theorem ensemble_vote_spec (predictions : List (List ℤ))
    (hne : predictions ≠ [])
    (hrange : ∀ pred ∈ predictions, ∀ n ∈ pred, 1 ≤ n ∧ n ≤ 90) :
    (_ensemble_vote predictions).length = 5 ∧
    (_ensemble_vote predictions).Nodup ∧
    List.Sorted (· ≤ ·) (_ensemble_vote predictions) ∧
    (∀ n ∈ _ensemble_vote predictions, 1 ≤ n ∧ n ≤ 90) := by
  have hne' : ¬ predictions.isEmpty = true := by
    rw [List.isEmpty_iff]
    exact hne
  have hvotes : ∀ (sc : List (ℤ × ℕ)),
      (((predictions.enum.foldl (fun acc ip =>
        let weight : ℚ := if ip.1 < 4 then
            ([1, 12/10, 11/10, 13/10] : List ℚ).getD ip.1 1
          else 1
        ip.2.foldl (fun a num =>
          bumpQ a num (weight + (getN sc num : ℚ) * (5/10))) acc)
        []).map Prod.fst).Nodup ∧
      (∀ x ∈ (predictions.enum.foldl (fun acc ip =>
        let weight : ℚ := if ip.1 < 4 then
            ([1, 12/10, 11/10, 13/10] : List ℚ).getD ip.1 1
          else 1
        ip.2.foldl (fun a num =>
          bumpQ a num (weight + (getN sc num : ℚ) * (5/10))) acc)
        []).map Prod.fst, 1 ≤ x ∧ x ≤ 90)) := by
    intro sc
    apply foldl_preserve (fun acc : List (ℤ × ℚ) =>
      ((acc.map Prod.fst).Nodup ∧
        ∀ x ∈ acc.map Prod.fst, 1 ≤ x ∧ x ≤ 90))
    · exact ⟨List.nodup_nil, by simp⟩
    · intro acc ip hip hacc
      have hpred : ip.2 ∈ predictions := List.snd_mem_of_mem_enum hip
      dsimp only
      apply foldl_preserve (fun acc : List (ℤ × ℚ) =>
        ((acc.map Prod.fst).Nodup ∧
          ∀ x ∈ acc.map Prod.fst, 1 ≤ x ∧ x ≤ 90))
      · exact hacc
      · intro a num hnum ha
        refine ⟨bumpWith_keys_nodup ha.1, ?_⟩
        intro x hx
        rcases bumpWith_keys_mem.mp hx with h | rfl
        · exact ha.2 x h
        · exact hrange ip.2 hpred x hnum
  unfold _ensemble_vote
  rw [if_neg hne']
  dsimp only
  refine select5_core _ _ ?_ ?_
  · refine ((sortByKey3Desc_perm _ _).map Prod.fst).nodup_iff.mpr ?_
    rw [List.map_map]
    have hcomp : (Prod.fst ∘ fun p : ℤ × ℚ =>
        (p.1, ((getN (predictions.foldl (fun acc pred =>
          pred.foldl (fun a num => bumpN a num) acc) []) p.1 : ℚ) * 10 + p.2,
          (getN (predictions.foldl (fun acc pred =>
            pred.foldl (fun a num => bumpN a num) acc) []) p.1 : ℚ), p.2))) =
        Prod.fst := by
      funext p
      rfl
    rw [hcomp]
    exact (hvotes _).1
  · intro x hx
    rcases List.mem_map.mp hx with ⟨p, hp, rfl⟩
    have hp2 : p ∈ (predictions.enum.foldl (fun acc ip =>
        let weight : ℚ := if ip.1 < 4 then
            ([1, 12/10, 11/10, 13/10] : List ℚ).getD ip.1 1
          else 1
        ip.2.foldl (fun a num =>
          bumpQ a num (weight + (getN (predictions.foldl (fun acc pred =>
            pred.foldl (fun a num => bumpN a num) acc) []) num : ℚ) *
            (5/10))) acc) []).map (fun p : ℤ × ℚ =>
        (p.1, ((getN (predictions.foldl (fun acc pred =>
          pred.foldl (fun a num => bumpN a num) acc) []) p.1 : ℚ) * 10 + p.2,
          (getN (predictions.foldl (fun acc pred =>
            pred.foldl (fun a num => bumpN a num) acc) []) p.1 : ℚ), p.2))) :=
      (sortByKey3Desc_perm _ _).subset hp
    rcases List.mem_map.mp hp2 with ⟨q, hq, rfl⟩
    exact (hvotes _).2 q.1 (List.mem_map.mpr ⟨q, hq, rfl⟩)

/-- Claim C2 (amended): the 'intelligence' strategy NEVER surfaces an
error to the caller: for every behaviour of the external engine (even one
whose construction and every operation fail), every dataset and every
machine-draw argument the result is `.ok` with an 'intelligence' entry;
and with no machine data at all the entry is the frequency-based top-5
fallback — a degraded result, not a raised error. -/
theorem generate_predictions_intelligence_spec
    (mkEngine : Except String IntelEngine)
    (historical : List (List ℤ))
    (machine_draws : Option (List (List ℤ))) :
    (∃ preds, generate_predictions_intelligence mkEngine historical
        machine_draws = .ok [("intelligence", preds)]) ∧
    generate_predictions_intelligence mkEngine historical none =
      .ok [("intelligence", [freqFallback historical])] := by
  constructor
  · cases machine_draws with
    | none => exact ⟨_, rfl⟩
    | some md =>
      unfold generate_predictions_intelligence
      dsimp only
      by_cases h1 : md.isEmpty = true
      · rw [if_pos h1]
        exact ⟨_, rfl⟩
      · rw [if_neg h1]
        by_cases h2 : md.length ≠ historical.length
        · rw [if_pos h2]
          exact ⟨_, rfl⟩
        · rw [if_neg h2]
          cases h : mkEngine >>= intelligenceTryBlock with
          | ok preds => exact ⟨_, rfl⟩
          | error e => exact ⟨_, rfl⟩
  · rfl



/-- Claim C1 (amended): the seed derived at the top of
`generate_predictions` (lines 2251-2253) reseeds the RNG before any
randomized choice of the call itself, so the ambient random state at
CALL time is irrelevant: with the same dataset and the same stored
yearly analysis, calls agree for every pair of ambient streams and
cursors — in particular repeated calls on one engine instance agree,
even though each call mutates the global random state.  Determinism
across freshly CONSTRUCTED engines fails, because construction consumes
ambient randomness before any seeding (see the counterexample). -/
theorem generate_predictions_yearly_call_deterministic
    (historical : List (List ℤ)) (ya : Option (List (List ℤ)))
    (mlPred patPred : List ℤ) (boostFn : List ℤ → List ℤ)
    (trend : Option TrendData) (stdFn : List ℚ → ℚ)
    (md5fn : List (List ℤ) → String → ℕ) (prngFn : ℕ → Gen)
    (g g' : Gen) (i i' : ℕ) :
    generate_predictions_yearly historical ya mlPred boostFn patPred
      trend stdFn md5fn prngFn g i =
    generate_predictions_yearly historical ya mlPred boostFn patPred
      trend stdFn md5fn prngFn g' i' := rfl


section RatEval

/- `Rat.add`/`Rat.mul`/`Rat.sub`/`Rat.inv` are `@[irreducible]` in Batteries,
which blocks `decide` on concrete rational computations; unseal them locally
for the concrete witnesses and counterexamples. -/
attribute [local semireducible] Rat.add Rat.mul Rat.sub Rat.inv

set_option maxRecDepth 8000 in
/-- Witness for claim C3 at concrete inputs: the empty history (fewer than
100 draws) and 100 identical draws (both halves statistically identical, so
the weighted change is 0 and nothing is detected). -/
theorem detect_regime_change_spec_witness :
    detect_regime_change (fun _ => 0) (fun _ => 0) (fun _ => 0)
      ([] : List (List ℤ)) = { detected := false, confidence := 0 } ∧
    (detect_regime_change (fun _ => 0) (fun _ => 0) (fun _ => 0)
        (List.replicate 100 [1, 2, 3, 4, 5])).detected = false ∧
    (detect_regime_change (fun _ => 0) (fun _ => 0) (fun _ => 0)
        (List.replicate 100 [1, 2, 3, 4, 5])).confidence = 0 := by
  have h1 := (detect_regime_change_spec (fun _ => 0) (fun _ => 0) (fun _ => 0)
    ([] : List (List ℤ))).1 (by decide)
  have h2 := (detect_regime_change_spec (fun _ => 0) (fun _ => 0) (fun _ => 0)
    (List.replicate 100 [1, 2, 3, 4, 5])).2 (by simp)
  refine ⟨h1, ?_, ?_⟩
  · rw [h2.1]
    decide
  · rw [h2.2]
    decide

theorem normalizeDist_keys (l : List (ℤ × ℚ)) :
    (normalizeDist l).map Prod.fst = l.map Prod.fst := by
  unfold normalizeDist
  dsimp only
  split_ifs
  · rw [List.map_map]
    rfl
  · rfl

theorem normalizeDist_nonneg (l : List (ℤ × ℚ)) (h : ∀ p ∈ l, 0 ≤ p.2) :
    ∀ p ∈ normalizeDist l, 0 ≤ p.2 := by
  unfold normalizeDist
  dsimp only
  split_ifs with h0
  · intro p hp
    rcases List.mem_map.mp hp with ⟨q, hq, rfl⟩
    exact div_nonneg (h q hq) (le_of_lt h0)
  · exact h

theorem normalizeDist_sum (l : List (ℤ × ℚ)) :
    0 < ((normalizeDist l).map Prod.snd).sum →
    ((normalizeDist l).map Prod.snd).sum = 1 := by
  unfold normalizeDist
  dsimp only
  split_ifs with h0
  · intro _
    rw [List.map_map]
    simp only [Function.comp_def]
    simp only [div_eq_mul_inv, List.sum_map_mul_right]
    have h2 : (l.map fun p => p.2).sum = (l.map Prod.snd).sum := rfl
    rw [h2, mul_inv_cancel₀ (ne_of_gt h0)]
  · intro hpos
    exact absurd hpos h0

set_option maxRecDepth 16000 in
/-- Claim C6: on fewer than 60 historical draws, training the
classifier-ensemble predictor fails (no feature samples are produced, so
the predictor stays untrained), and `predict_proba` then returns exactly
the uniform distribution assigning 1/90 to every number 1..90; the weights
sum to 1 and any two weights are equal (max − min = 0). -/
theorem classifier_fallback_uniform (historical : List (List ℤ))
    (scaler : List ℚ → List ℚ) (rf gb : List ℚ → ℚ)
    (h : historical.length < 60) :
    train_succeeds historical = false ∧
    predict_proba (train_succeeds historical) scaler rf gb historical =
      (pyrange 1 91).map (fun i => (i, (1 : ℚ)/90)) ∧
    ((predict_proba (train_succeeds historical) scaler rf gb
      historical).map Prod.snd).sum = 1 ∧
    (∀ p ∈ predict_proba (train_succeeds historical) scaler rf gb historical,
     ∀ q ∈ predict_proba (train_succeeds historical) scaler rf gb historical,
      p.2 - q.2 = 0) := by
  have hcf : create_features historical = [] := by
    have hlt : historical.length < 50 + 10 := by omega
    unfold create_features
    simp [hlt]
  have ht : train_succeeds historical = false := by
    unfold train_succeeds
    rw [hcf]
    rfl
  have hp : predict_proba (train_succeeds historical) scaler rf gb historical =
      (pyrange 1 91).map (fun i => (i, (1 : ℚ)/90)) := by
    rw [ht]
    rfl
  refine ⟨ht, hp, ?_, ?_⟩
  · rw [hp]
    decide
  · rw [hp]
    intro p hp' q hq'
    rcases List.mem_map.mp hp' with ⟨i, _, rfl⟩
    rcases List.mem_map.mp hq' with ⟨j, _, rfl⟩
    simp

/-- Witness for claim C6 at ten identical draws (fewer than 60). -/
theorem classifier_fallback_uniform_witness :
    train_succeeds (List.replicate 10 [1, 2, 3, 4, 5]) = false ∧
    predict_proba (train_succeeds (List.replicate 10 [1, 2, 3, 4, 5]))
        (fun f => f) (fun _ => 0) (fun _ => 0)
        (List.replicate 10 [1, 2, 3, 4, 5]) =
      (pyrange 1 91).map (fun i => (i, (1 : ℚ)/90)) ∧
    ((predict_proba (train_succeeds (List.replicate 10 [1, 2, 3, 4, 5]))
        (fun f => f) (fun _ => 0) (fun _ => 0)
        (List.replicate 10 [1, 2, 3, 4, 5])).map Prod.snd).sum = 1 ∧
    (∀ p ∈ predict_proba (train_succeeds (List.replicate 10 [1, 2, 3, 4, 5]))
        (fun f => f) (fun _ => 0) (fun _ => 0)
        (List.replicate 10 [1, 2, 3, 4, 5]),
     ∀ q ∈ predict_proba (train_succeeds (List.replicate 10 [1, 2, 3, 4, 5]))
        (fun f => f) (fun _ => 0) (fun _ => 0)
        (List.replicate 10 [1, 2, 3, 4, 5]),
      p.2 - q.2 = 0) :=
  classifier_fallback_uniform (List.replicate 10 [1, 2, 3, 4, 5])
    (fun f => f) (fun _ => 0) (fun _ => 0) (by simp)

set_option maxRecDepth 16000 in
/-- Claim C10: `predict_proba` always returns one weight for each number
1..90 in order; the weights are non-negative whenever the two models return
non-negative probabilities, and whenever the total weight is positive the
weights sum to 1 — in both the trained and the untrained case. -/
theorem predict_proba_distribution (is_trained : Bool)
    (scaler : List ℚ → List ℚ) (rf gb : List ℚ → ℚ)
    (historical : List (List ℤ))
    (hrf : ∀ fs, 0 ≤ rf fs) (hgb : ∀ fs, 0 ≤ gb fs) :
    ((predict_proba is_trained scaler rf gb historical).map Prod.fst =
      pyrange 1 91) ∧
    (∀ p ∈ predict_proba is_trained scaler rf gb historical, 0 ≤ p.2) ∧
    (0 < ((predict_proba is_trained scaler rf gb historical).map
        Prod.snd).sum →
      ((predict_proba is_trained scaler rf gb historical).map
        Prod.snd).sum = 1) := by
  cases is_trained
  case false =>
    have huni : predict_proba false scaler rf gb historical =
        (pyrange 1 91).map (fun i => (i, (1 : ℚ)/90)) := rfl
    rw [huni]
    refine ⟨by decide, ?_, fun _ => by decide⟩
    intro p hp
    rcases List.mem_map.mp hp with ⟨i, _, rfl⟩
    norm_num
  case true =>
    have hpred : predict_proba true scaler rf gb historical =
        normalizeDist ((pyrange 1 91).map (fun num =>
          let recent :=
            if historical.length ≥ 50 then lastN 50 historical
            else historical
          let features := featureVec ((recent.length : ℚ)) historical
            recent num
          let fs := scaler features
          (num, (rf fs + gb fs) / 2))) := rfl
    rw [hpred]
    refine ⟨?_, normalizeDist_nonneg _ ?_, normalizeDist_sum _⟩
    · rw [normalizeDist_keys, List.map_map]
      exact List.map_id _
    · intro p hp
      rcases List.mem_map.mp hp with ⟨num, _, rfl⟩
      exact div_nonneg (add_nonneg (hrf _) (hgb _)) (by norm_num)

/-- Witness for claim C10 at a trained predictor over five draws with both
models returning the constant probability 1/2. -/
theorem predict_proba_distribution_witness :
    ((predict_proba true (fun f => f) (fun _ => 1/2) (fun _ => 1/2)
      [[1, 2, 3, 4, 5]]).map Prod.fst = pyrange 1 91) ∧
    (∀ p ∈ predict_proba true (fun f => f) (fun _ => 1/2) (fun _ => 1/2)
      [[1, 2, 3, 4, 5]], 0 ≤ p.2) ∧
    (0 < ((predict_proba true (fun f => f) (fun _ => 1/2) (fun _ => 1/2)
        [[1, 2, 3, 4, 5]]).map Prod.snd).sum →
      ((predict_proba true (fun f => f) (fun _ => 1/2) (fun _ => 1/2)
        [[1, 2, 3, 4, 5]]).map Prod.snd).sum = 1) :=
  predict_proba_distribution true (fun f => f) (fun _ => 1/2) (fun _ => 1/2)
    [[1, 2, 3, 4, 5]] (fun _ => by norm_num) (fun _ => by norm_num)

set_option maxRecDepth 32000 in
/-- Counterexample to claim C7 as stated: on the valid candidate
`[1,12,23,34,45]`, history `[[1,2,3,4,5]]` (whose gaps are all 1, so
`np.std` is exactly 0) and agreement 0.5, the weighted sum of the six
factors is 0.4775 but the returned confidence field is `round(0.4775, 3) =
0.478 ≠ 0.4775` — the scorer does NOT return the weighted sum itself. -/
theorem calculate_confidence_not_weighted_sum :
    ([1, 12, 23, 34, 45] : List ℤ).length = 5 ∧
    ([1, 12, 23, 34, 45] : List ℤ).Nodup ∧
    (∀ x ∈ ([1, 12, 23, 34, 45] : List ℤ), 1 ≤ x ∧ x ≤ 90) ∧
    ((0 : ℚ) ≤ 1/2 ∧ (1/2 : ℚ) ≤ 1) ∧
    claimedWeightedSum (calculate_confidence (fun _ => 0) [1, 12, 23, 34, 45]
      [[1, 2, 3, 4, 5]] (1/2)).factors = 191/400 ∧
    (calculate_confidence (fun _ => 0) [1, 12, 23, 34, 45]
      [[1, 2, 3, 4, 5]] (1/2)).confidence = 239/500 ∧
    (calculate_confidence (fun _ => 0) [1, 12, 23, 34, 45]
      [[1, 2, 3, 4, 5]] (1/2)).confidence ≠
      claimedWeightedSum (calculate_confidence (fun _ => 0)
        [1, 12, 23, 34, 45] [[1, 2, 3, 4, 5]] (1/2)).factors := by
  refine ⟨by decide, by decide, by decide, by norm_num, ?_, ?_, ?_⟩
  · decide
  · decide
  · decide

set_option maxRecDepth 32000 in
/-- Witness for claim C7's amended theorem at the same concrete input. -/
theorem calculate_confidence_spec_witness :
    (calculate_confidence (fun _ => 0) [1, 12, 23, 34, 45]
      [[1, 2, 3, 4, 5]] (1/2)).confidence =
    pyround3 (claimedWeightedSum (calculate_confidence (fun _ => 0)
      [1, 12, 23, 34, 45] [[1, 2, 3, 4, 5]] (1/2)).factors) :=
  (calculate_confidence_spec (fun _ => 0) [1, 12, 23, 34, 45]
    [[1, 2, 3, 4, 5]] (1/2) (by decide) (by decide) (by decide)
    (by norm_num) (by norm_num)).1

/-- Witness for C8: concrete three-strategy input. -/
theorem ensemble_vote_spec_witness :
    (_ensemble_vote [[1,2,3,4,5],[3,4,5,6,7],[5,6,7,8,9]]).length = 5 ∧
    (_ensemble_vote [[1,2,3,4,5],[3,4,5,6,7],[5,6,7,8,9]]).Nodup ∧
    List.Sorted (· ≤ ·)
      (_ensemble_vote [[1,2,3,4,5],[3,4,5,6,7],[5,6,7,8,9]]) ∧
    (∀ n ∈ _ensemble_vote [[1,2,3,4,5],[3,4,5,6,7],[5,6,7,8,9]],
      1 ≤ n ∧ n ≤ 90) :=
  ensemble_vote_spec [[1,2,3,4,5],[3,4,5,6,7],[5,6,7,8,9]]
    (by decide) (by decide)

set_option maxRecDepth 16000 in
/-- Witness for C5: concrete strategy results with pairwise-distinct
consensus scores. -/
theorem two_sure_subset_three_direct_witness :
    2 ∈ _extract_consensus_numbers none
        [("ml", [[1, 2]]), ("genetic", [[2, 3]]), ("pattern", [[3]])] 3 ∧
    3 ∈ _extract_consensus_numbers none
        [("ml", [[1, 2]]), ("genetic", [[2, 3]]), ("pattern", [[3]])] 3 :=
  ⟨two_sure_subset_three_direct none
      [("ml", [[1, 2]]), ("genetic", [[2, 3]]), ("pattern", [[3]])]
      (by decide) 2 (by decide),
    two_sure_subset_three_direct none
      [("ml", [[1, 2]]), ("genetic", [[2, 3]]), ("pattern", [[3]])]
      (by decide) 3 (by decide)⟩


set_option maxRecDepth 8000 in
/-- Counterexample to claim C2 as stated: with strategy 'intelligence' and
no machine-number data at all, `generate_predictions` does NOT raise: on a
concrete dataset it returns `.ok` with the frequency-based top-5 fallback,
even when the engine constructor itself fails (lines 2372-2384, "Don't
raise - provide fallback instead"). -/
theorem intelligence_no_machine_not_error :
    generate_predictions_intelligence (.error "ImportError")
      [[1, 2, 3, 4, 5], [1, 2, 3, 4, 5]] none =
    .ok [("intelligence", [[1, 2, 3, 4, 5]])] := by rfl



set_option maxRecDepth 100000 in
/-- Counterexample to claim C1 as stated: two engines freshly constructed
from the SAME dataset, with the same abstract md5 and prng, differing
only in the ambient random state at construction time (constant streams
0 and 1/2), return different results for the same call
`generate_predictions('yearly')`: the `random.choices` at line 2015 runs
during construction, BEFORE the seeding at line 2253 exists, so the
derived seed does not determine it.  On this 3-draw dataset the trend
analyzer returns empty rising/falling/accelerating lists (every
`calculate_momentum` is neutral below 20 draws), so `_trend_data` is the
instantiated record and the repair pool is 1..90; the pre-repair stored
predictions are [1,2,3,4,5] and [3,4,5,6,7] (frequency-fallback
weighting over 1..15, since no cross-year pattern is ever stored), which
the anti-pattern pass repairs to [3,4,5,61,68] and [5,6,7,61,68]. -/
theorem generate_predictions_not_fresh_engine_deterministic :
    (engineCallYearly [[1,2,3,4,5],[6,7,8,9,10],[11,12,13,14,15]] 2026
      [] (fun l => l) []
      (some { rising := [], falling := [], accelerating := [] })
      (fun _ => 0) (fun _ _ => 0) (fun _ _ => 0) (fun _ => 0) 0).map
      (fun r => r.preds) =
      some [("yearly", [[3, 4, 5, 61, 68]]), ("two_sure", [[3, 4]]),
        ("three_direct", [[3, 4, 5]])] ∧
    (engineCallYearly [[1,2,3,4,5],[6,7,8,9,10],[11,12,13,14,15]] 2026
      [] (fun l => l) []
      (some { rising := [], falling := [], accelerating := [] })
      (fun _ => 0) (fun _ _ => 0) (fun _ _ => 0) (fun _ => 1/2) 0).map
      (fun r => r.preds) =
      some [("yearly", [[5, 6, 7, 61, 68]]), ("two_sure", [[5, 6]]),
        ("three_direct", [[5, 6, 7]])] := by
  constructor <;> rfl


end RatEval

end LottoOracle
